import Mathlib

/-! # godot-cpp: `Vector2i`, `Transform2Di` and `TypedDictionary`

A shallow embedding of the integer 2D primitives of
`include/godot_cpp/variant/vector2i.hpp`, `src/variant/vector2i.cpp`,
`include/godot_cpp/variant/transform2di.hpp` and of the typed dictionary
wrapper of `include/godot_cpp/variant/typed_dictionary.hpp`.

Machine integers are mathematical integers (`Int`); every C++ operation on
`int32_t` (resp. `int64_t`) is followed by an explicit reduction into the
two's complement range of width 32 (resp. 64).
-/

namespace godot

/-! ## Machine integers -/

/-- Reduction of an integer into the two's complement range of `int32_t`. -/
def wrap32 (z : Int) : Int := (z + 2 ^ 31) % 2 ^ 32 - 2 ^ 31

/-- Reduction of an integer into the two's complement range of `int64_t`. -/
def wrap64 (z : Int) : Int := (z + 2 ^ 63) % 2 ^ 64 - 2 ^ 63

/-- The value is representable as an `int32_t`. -/
def isInt32 (z : Int) : Prop := -2 ^ 31 ≤ z ∧ z < 2 ^ 31

/-- The value is representable as an `int64_t`. -/
def isInt64 (z : Int) : Prop := -2 ^ 63 ≤ z ∧ z < 2 ^ 63

instance (z : Int) : Decidable (isInt32 z) := by unfold isInt32; infer_instance

instance (z : Int) : Decidable (isInt64 z) := by unfold isInt64; infer_instance

/-- The `int32_t` addition `a + b`. -/
def add32 (a b : Int) : Int := wrap32 (a + b)

/-- The `int32_t` subtraction `a - b`. -/
def sub32 (a b : Int) : Int := wrap32 (a - b)

/-- The `int32_t` multiplication `a * b`. -/
def mul32 (a b : Int) : Int := wrap32 (a * b)

/-- The `int32_t` unary minus `-a`. -/
def neg32 (a : Int) : Int := wrap32 (-a)

/-- The `int64_t` addition `a + b`. -/
def add64 (a b : Int) : Int := wrap64 (a + b)

/-- The `int64_t` multiplication `a * b`. -/
def mul64 (a b : Int) : Int := wrap64 (a * b)

/-! ## `Vector2i` -/

/-- The struct `Vector2i`: two `int32_t` members `x` and `y`, aliased by
`coord[0]` and `coord[1]`. -/
structure Vector2i where
  x : Int
  y : Int
  deriving DecidableEq, Repr

namespace Vector2i

/-- Both members are representable as `int32_t`. -/
def valid (v : Vector2i) : Prop := isInt32 v.x ∧ isInt32 v.y

instance (v : Vector2i) : Decidable v.valid := by unfold valid; infer_instance

/-- The default constructor `Vector2i()`: `coord[2] = { 0 }`. -/
def default : Vector2i := ⟨0, 0⟩

/-- The accessor `operator[]`, reading `coord[p_idx]`; `coord[0]` is `x` and
`coord[1]` is `y`. -/
def coord (v : Vector2i) (p_idx : Nat) : Int :=
  if p_idx = 0 then v.x else v.y

/-- The assignment `v[p_idx] = val` through the non-const `operator[]`. -/
def setCoord (v : Vector2i) (p_idx : Nat) (val : Int) : Vector2i :=
  if p_idx = 0 then { v with x := val } else { v with y := val }

/-- The method `Vector2i::dot`: `x * p_other.x + y * p_other.y`. -/
def dot (v p_other : Vector2i) : Int :=
  add32 (mul32 v.x p_other.x) (mul32 v.y p_other.y)

/-- The method `Vector2i::cross`: `x * p_other.y - y * p_other.x`. -/
def cross (v p_other : Vector2i) : Int :=
  sub32 (mul32 v.x p_other.y) (mul32 v.y p_other.x)

/-- The method `Vector2i::is_equal`. -/
def is_equal (v p_v : Vector2i) : Bool :=
  v.x == p_v.x && v.y == p_v.y

/-- The method `Vector2i::length_squared`: `x * (int64_t)x + y * (int64_t)y`. -/
def length_squared (v : Vector2i) : Int :=
  add64 (mul64 v.x v.x) (mul64 v.y v.y)

/-- The operator `Vector2i::operator+`. -/
def add (v p_v : Vector2i) : Vector2i :=
  ⟨add32 v.x p_v.x, add32 v.y p_v.y⟩

/-- The operator `Vector2i::operator-` (binary). -/
def sub (v p_v : Vector2i) : Vector2i :=
  ⟨sub32 v.x p_v.x, sub32 v.y p_v.y⟩

/-- The operator `Vector2i::operator==`. -/
def eq (v p_vec2 : Vector2i) : Bool :=
  v.x == p_vec2.x && v.y == p_vec2.y

/-- The operator `Vector2i::operator!=`. -/
def ne (v p_vec2 : Vector2i) : Bool :=
  v.x != p_vec2.x || v.y != p_vec2.y

/-- The operator `Vector2i::operator<`:
`(x == p_vec2.x) ? (y < p_vec2.y) : (x < p_vec2.x)`. -/
def lt (v p_vec2 : Vector2i) : Bool :=
  if v.x == p_vec2.x then decide (v.y < p_vec2.y) else decide (v.x < p_vec2.x)

end Vector2i

/-! ## `Transform2Di` -/

/-- The struct `Transform2Di`: the array `Vector2i columns[3]`, one field for
each cell. -/
structure Transform2Di where
  col0 : Vector2i
  col1 : Vector2i
  col2 : Vector2i
  deriving DecidableEq, Repr

namespace Transform2Di

/-- All six members are representable as `int32_t`. -/
def valid (t : Transform2Di) : Prop := t.col0.valid ∧ t.col1.valid ∧ t.col2.valid

instance (t : Transform2Di) : Decidable t.valid := by unfold valid; infer_instance

/-- The cell `columns[p_idx]` (also `operator[]`). -/
def columns (t : Transform2Di) (p_idx : Nat) : Vector2i :=
  if p_idx = 0 then t.col0 else if p_idx = 1 then t.col1 else t.col2

/-- The assignment `columns[p_idx] = v`. -/
def setColumn (t : Transform2Di) (p_idx : Nat) (v : Vector2i) : Transform2Di :=
  if p_idx = 0 then { t with col0 := v }
  else if p_idx = 1 then { t with col1 := v }
  else { t with col2 := v }

/-- The assignment `columns[i][j] = val`. -/
def setCell (t : Transform2Di) (i j : Nat) (val : Int) : Transform2Di :=
  t.setColumn i ((t.columns i).setCoord j val)

/-- The array `columns` as its member initializers leave it: three
default-constructed `Vector2i`. -/
def zeroed : Transform2Di := ⟨Vector2i.default, Vector2i.default, Vector2i.default⟩

/-- The default constructor `Transform2Di()`:
`columns[0][0] = 1; columns[1][1] = 1;`. -/
def default : Transform2Di :=
  (zeroed.setCell 0 0 1).setCell 1 1 1

/-- The constructor `Transform2Di(xx, xy, yx, yy, ox, oy)`. -/
def mk6 (xx xy yx yy ox oy : Int) : Transform2Di :=
  (((((zeroed.setCell 0 0 xx).setCell 0 1 xy).setCell 1 0 yx).setCell 1 1 yy).setCell 2 0 ox).setCell
    2 1 oy

/-- The method `tdotx`: `columns[0][0] * v.x + columns[1][0] * v.y`. -/
def tdotx (t : Transform2Di) (v : Vector2i) : Int :=
  add32 (mul32 ((t.columns 0).coord 0) v.x) (mul32 ((t.columns 1).coord 0) v.y)

/-- The method `tdoty`: `columns[0][1] * v.x + columns[1][1] * v.y`. -/
def tdoty (t : Transform2Di) (v : Vector2i) : Int :=
  add32 (mul32 ((t.columns 0).coord 1) v.x) (mul32 ((t.columns 1).coord 1) v.y)

/-- The method `get_origin`. -/
def get_origin (t : Transform2Di) : Vector2i := t.columns 2

/-- The method `set_origin`. -/
def set_origin (t : Transform2Di) (p_origin : Vector2i) : Transform2Di :=
  t.setColumn 2 p_origin

/-- The method `basis_xform`. -/
def basis_xform (t : Transform2Di) (p_vec : Vector2i) : Vector2i :=
  ⟨t.tdotx p_vec, t.tdoty p_vec⟩

/-- The method `basis_xform_inv`. -/
def basis_xform_inv (t : Transform2Di) (p_vec : Vector2i) : Vector2i :=
  ⟨(t.columns 0).dot p_vec, (t.columns 1).dot p_vec⟩

/-- The method `xform` on a `Vector2i`. -/
def xform (t : Transform2Di) (p_vec : Vector2i) : Vector2i :=
  (Vector2i.mk (t.tdotx p_vec) (t.tdoty p_vec)).add (t.columns 2)

/-- The method `xform_inv` on a `Vector2i`. -/
def xform_inv (t : Transform2Di) (p_vec : Vector2i) : Vector2i :=
  let v := p_vec.sub (t.columns 2)
  ⟨(t.columns 0).dot v, (t.columns 1).dot v⟩

/-- The basis is orthonormal in the sense of the 32-bit `dot`. -/
def orthonormal (t : Transform2Di) : Prop :=
  (t.columns 0).dot (t.columns 0) = 1 ∧ (t.columns 1).dot (t.columns 1) = 1 ∧
    (t.columns 0).dot (t.columns 1) = 0

instance (t : Transform2Di) : Decidable t.orthonormal := by unfold orthonormal; infer_instance

end Transform2Di

/-! ## `TypedDictionary` -/

/-- The tags of `Variant::Type` that `typed_dictionary.hpp` names. -/
inductive VariantType
  | NIL | BOOL | INT | FLOAT | STRING | VECTOR2 | VECTOR2I | RECT2 | RECT2I | VECTOR3
  | VECTOR3I | TRANSFORM2D | TRANSFORM2DI | PLANE | QUATERNION | AABB | BASIS | TRANSFORM3D
  | COLOR | STRING_NAME | NODE_PATH | RID | OBJECT | CALLABLE | SIGNAL | DICTIONARY | ARRAY
  | PACKED_BYTE_ARRAY | PACKED_INT32_ARRAY | PACKED_INT64_ARRAY | PACKED_FLOAT32_ARRAY
  | PACKED_FLOAT64_ARRAY | PACKED_STRING_ARRAY | PACKED_VECTOR2_ARRAY | PACKED_VECTOR2I_ARRAY
  | PACKED_VECTOR3_ARRAY | PACKED_COLOR_ARRAY | PACKED_VECTOR4_ARRAY
  deriving DecidableEq, Repr

/-- The C++ types for which `typed_dictionary.hpp` writes specializations. -/
inductive BuiltinType
  | Variant | bool | uint8_t | int8_t | uint16_t | int16_t | uint32_t | int32_t | uint64_t
  | int64_t | float | double | String | Vector2 | Vector2i | Rect2 | Rect2i | Vector3
  | Vector3i | Transform2D | Transform2Di | Plane | Quaternion | AABB | Basis | Transform3D
  | Color | StringName | NodePath | RID | Callable | Signal | Dictionary | Array
  | PackedByteArray | PackedInt32Array | PackedInt64Array | PackedFloat32Array
  | PackedFloat64Array | PackedStringArray | PackedVector2Array | PackedVector2iArray
  | PackedVector3Array | PackedColorArray | PackedVector4Array
  deriving DecidableEq, Repr

/-- The six arguments of `Dictionary::set_typed`: type tag, class name and
script of the keys, then of the values. -/
structure Typing (Var : Type) where
  key_type : VariantType
  key_class_name : String
  key_script : Var
  value_type : VariantType
  value_class_name : String
  value_script : Var
  deriving DecidableEq, Repr

/-- The members of the host engine's `Dictionary` and `Variant` that
`TypedDictionary` forwards to. They are declared in
`godot_cpp/variant/dictionary.hpp` and `variant.hpp`, outside these sources,
and are taken as a parameter. -/
structure DictionaryOps (D Var : Type) where
  /-- The constructor `Dictionary()`. -/
  new : D
  /-- The constructor `Dictionary(const Variant &)`. -/
  from_variant : Var → D
  /-- The constructor `Variant()`. -/
  nil_variant : Var
  /-- The method `is_same_typed`, called on the first argument. -/
  is_same_typed : D → D → Bool
  /-- The operator `Dictionary::operator=`, called on the first argument. -/
  operator_assign : D → D → D
  /-- The method `assign`, called on the first argument. -/
  assign : D → D → D
  /-- The method `set_typed`, called on the first argument. -/
  set_typed : D → VariantType → String → Var → VariantType → String → Var → D

/-- The class templates named `TypedDictionary`: the primary template on two
object classes (given by `K::get_class_static()` and `V::get_class_static()`),
the two partial specializations of `MAKE_TYPED_DICTIONARY_WITH_OBJECT` and the
explicit specialization of `MAKE_TYPED_DICTIONARY_EXPANDED`. -/
inductive Template
  | primary (K V : String)
  | with_object_value (T : String) (m_variant_type : VariantType)
  | with_object_key (m_variant_type : VariantType) (T : String)
  | expanded (m_variant_type_key m_variant_type_value : VariantType)
  deriving DecidableEq, Repr

/-- What a member function of `TypedDictionary` did, in order: the calls it
forwarded to `Dictionary` and the errors it reported. -/
inductive Call (D Var : Type)
  | set_typed (typing : Typing Var)
  | operator_assign (p_dictionary : D)
  | assign (p_dictionary : D)
  | error (msg : String)
  deriving DecidableEq, Repr

/-- The state of the object after a member function returned, and what the
function did. -/
structure Outcome (D Var : Type) where
  self : D
  calls : List (Call D Var)
  deriving DecidableEq, Repr

namespace TypedDictionary

/-- The arguments of the `set_typed` call written in each template; `StringName()`
is the empty name. -/
def declared {D Var : Type} (ops : DictionaryOps D Var) : Template → Typing Var
  | .primary K V => ⟨.OBJECT, K, ops.nil_variant, .OBJECT, V, ops.nil_variant⟩
  | .with_object_value T m_variant_type =>
    ⟨.OBJECT, T, ops.nil_variant, m_variant_type, "", ops.nil_variant⟩
  | .with_object_key m_variant_type T =>
    ⟨m_variant_type, "", ops.nil_variant, .OBJECT, T, ops.nil_variant⟩
  | .expanded m_variant_type_key m_variant_type_value =>
    ⟨m_variant_type_key, "", ops.nil_variant, m_variant_type_value, "", ops.nil_variant⟩

/-- The statement `set_typed(...)` of the constructors. -/
def call_set_typed {D Var : Type} (ops : DictionaryOps D Var) (tpl : Template) (self : D) : D :=
  ops.set_typed self (declared ops tpl).key_type (declared ops tpl).key_class_name
    (declared ops tpl).key_script (declared ops tpl).value_type
    (declared ops tpl).value_class_name (declared ops tpl).value_script

/-- The message that `operator=` passes to `ERR_FAIL_COND_MSG` in each template. -/
def assign_error_message : Template → String
  | .primary _ _ => "Cannot assign a dictionary with a different element type."
  | .with_object_value _ _ => "Cannot assign an dictionary with a different element type."
  | .with_object_key _ _ => "Cannot assign an dictionary with a different element type."
  | .expanded _ _ => "Cannot assign an dictionary with a different element type."

/-- The operator `TypedDictionary::operator=(const Dictionary &)`.
`ERR_FAIL_COND_MSG(c, m)` reports the error `m` and returns when `c` holds. -/
def operator_assign {D Var : Type} (ops : DictionaryOps D Var) (tpl : Template)
    (self p_dictionary : D) : Outcome D Var :=
  if !ops.is_same_typed self p_dictionary then
    ⟨self, [.error (assign_error_message tpl)]⟩
  else
    ⟨ops.operator_assign self p_dictionary, [.operator_assign p_dictionary]⟩

/-- The constructor `TypedDictionary()`. -/
def new {D Var : Type} (ops : DictionaryOps D Var) (tpl : Template) : Outcome D Var :=
  ⟨call_set_typed ops tpl ops.new, [.set_typed (declared ops tpl)]⟩

/-- The constructor `TypedDictionary(const Dictionary &)`. -/
def from_dictionary {D Var : Type} (ops : DictionaryOps D Var) (tpl : Template)
    (p_dictionary : D) : Outcome D Var :=
  let self := call_set_typed ops tpl ops.new
  if ops.is_same_typed self p_dictionary then
    ⟨ops.operator_assign self p_dictionary,
      [.set_typed (declared ops tpl), .operator_assign p_dictionary]⟩
  else
    ⟨ops.assign self p_dictionary, [.set_typed (declared ops tpl), .assign p_dictionary]⟩

/-- The constructor `TypedDictionary(const Variant &)`, which delegates to
`TypedDictionary(Dictionary(p_variant))`. -/
def from_variant {D Var : Type} (ops : DictionaryOps D Var) (tpl : Template)
    (p_variant : Var) : Outcome D Var :=
  from_dictionary ops tpl (ops.from_variant p_variant)

end TypedDictionary

/-- What `TypedDictionary` relies on from the host engine's `Dictionary`, in
terms of an observation `typing` of a dictionary's element typing: `set_typed`
on a fresh dictionary installs its arguments, `is_same_typed` only accepts a
dictionary of the same typing, `operator=` adopts the typing of its argument
and `assign` keeps the typing of the receiver. -/
structure DictionaryLaws {D Var : Type} (ops : DictionaryOps D Var)
    (typing : D → Typing Var) : Prop where
  set_typed_new : ∀ ty : Typing Var,
    typing (ops.set_typed ops.new ty.key_type ty.key_class_name ty.key_script ty.value_type
      ty.value_class_name ty.value_script) = ty
  is_same_typed_sound : ∀ d p : D, ops.is_same_typed d p = true → typing p = typing d
  operator_assign_typing : ∀ d p : D, typing (ops.operator_assign d p) = typing p
  assign_typing : ∀ d p : D, typing (ops.assign d p) = typing d

/-- Modelled from the spec: a stand-in for the host engine's dynamically-typed
`Variant`, of which only the empty value and a dictionary payload (a list of
entries) are distinguished. It serves to run the code at concrete inputs. -/
abbrev RefVariant : Type := Option (List (Int × Int))

/-- Modelled from the spec: a stand-in for the host engine's dynamically-typed
key/value container `Dictionary`, made of its element typing and its entries.
It serves to run the code at concrete inputs. -/
structure RefDictionary where
  typing : Typing RefVariant
  entries : List (Int × Int)
  deriving DecidableEq, Repr

/-- Modelled from the spec: the members of the stand-in `RefDictionary`. An
untyped dictionary has the tag `NIL` for keys and values; `operator=` adopts
its argument, `assign` takes over the entries and keeps the typing. -/
def refOps : DictionaryOps RefDictionary RefVariant where
  new := ⟨⟨.NIL, "", none, .NIL, "", none⟩, []⟩
  from_variant := fun v => ⟨⟨.NIL, "", none, .NIL, "", none⟩, v.getD []⟩
  nil_variant := none
  is_same_typed := fun d p => decide (d.typing = p.typing)
  operator_assign := fun _ p => p
  assign := fun d p => ⟨d.typing, p.entries⟩
  set_typed := fun d kt kc ks vt vc vs => ⟨⟨kt, kc, ks, vt, vc, vs⟩, d.entries⟩

/-! ## The macro expansion of `typed_dictionary.hpp` -/

/-- One explicit specialization `TypedDictionary<m_type_key, m_type_value>`
written by `MAKE_TYPED_DICTIONARY_EXPANDED`, with its two type tags. -/
structure Specialization where
  m_type_key : BuiltinType
  m_variant_type_key : VariantType
  m_type_value : BuiltinType
  m_variant_type_value : VariantType
  deriving DecidableEq, Repr

/-- The macro `MAKE_TYPED_DICTIONARY_EXPANDED`: one explicit specialization. -/
def MAKE_TYPED_DICTIONARY_EXPANDED (m_type_key : BuiltinType) (m_variant_type_key : VariantType)
    (m_type_value : BuiltinType) (m_variant_type_value : VariantType) : List Specialization :=
  [⟨m_type_key, m_variant_type_key, m_type_value, m_variant_type_value⟩]

/-- The value type and tag of the 44 `MAKE_TYPED_DICTIONARY_EXPANDED` lines of
the body of `MAKE_TYPED_DICTIONARY_NIL`, in order. -/
def NIL_rows : List (BuiltinType × VariantType) :=
  [
    (.bool, .BOOL), (.uint8_t, .INT), (.int8_t, .INT), (.uint16_t, .INT), (.int16_t, .INT),
    (.uint32_t, .INT), (.int32_t, .INT), (.uint64_t, .INT), (.int64_t, .INT), (.float, .FLOAT),
    (.double, .FLOAT), (.String, .STRING), (.Vector2, .VECTOR2), (.Vector2i, .VECTOR2I),
    (.Rect2, .RECT2), (.Rect2i, .RECT2I), (.Vector3, .VECTOR3), (.Vector3i, .VECTOR3I),
    (.Transform2D, .TRANSFORM2D), (.Transform2Di, .TRANSFORM2DI), (.Plane, .PLANE),
    (.Quaternion, .QUATERNION), (.AABB, .AABB), (.Basis, .BASIS), (.Transform3D, .TRANSFORM3D),
    (.Color, .COLOR), (.StringName, .STRING_NAME), (.NodePath, .NODE_PATH), (.RID, .RID),
    (.Callable, .CALLABLE), (.Signal, .SIGNAL), (.Dictionary, .DICTIONARY), (.Array, .ARRAY),
    (.PackedByteArray, .PACKED_BYTE_ARRAY), (.PackedInt32Array, .PACKED_INT32_ARRAY),
    (.PackedInt64Array, .PACKED_INT64_ARRAY), (.PackedFloat32Array, .PACKED_FLOAT32_ARRAY),
    (.PackedFloat64Array, .PACKED_FLOAT64_ARRAY), (.PackedStringArray, .PACKED_STRING_ARRAY),
    (.PackedVector2Array, .PACKED_VECTOR2_ARRAY),
    (.PackedVector2iArray, .PACKED_VECTOR2I_ARRAY),
    (.PackedVector3Array, .PACKED_VECTOR3_ARRAY), (.PackedColorArray, .PACKED_COLOR_ARRAY),
    (.PackedVector4Array, .PACKED_VECTOR4_ARRAY)
  ]

/-- The macro `MAKE_TYPED_DICTIONARY_NIL`. Its first line,
`MAKE_TYPED_DICTIONARY_WITH_OBJECT`, writes two partial specializations
(`template <typename T>`) and no explicit one. -/
def MAKE_TYPED_DICTIONARY_NIL (m_type : BuiltinType) (m_variant_type : VariantType) :
    List Specialization :=
  NIL_rows.flatMap fun r => MAKE_TYPED_DICTIONARY_EXPANDED m_type m_variant_type r.1 r.2

/-- The macro `MAKE_TYPED_DICTIONARY`. -/
def MAKE_TYPED_DICTIONARY (m_type : BuiltinType) (m_variant_type : VariantType) :
    List Specialization :=
  MAKE_TYPED_DICTIONARY_EXPANDED m_type m_variant_type .Variant .NIL ++
    MAKE_TYPED_DICTIONARY_NIL m_type m_variant_type

/-- The arguments of the 44 invocations of `MAKE_TYPED_DICTIONARY`, in order. -/
def invocations : List (BuiltinType × VariantType) :=
  [
    (.bool, .BOOL), (.uint8_t, .INT), (.int8_t, .INT), (.uint16_t, .INT), (.int16_t, .INT),
    (.uint32_t, .INT), (.int32_t, .INT), (.uint64_t, .INT), (.int64_t, .INT), (.float, .FLOAT),
    (.double, .FLOAT), (.String, .STRING), (.Vector2, .VECTOR2), (.Vector2i, .VECTOR2I),
    (.Rect2, .RECT2), (.Rect2i, .RECT2I), (.Vector3, .VECTOR3), (.Vector3i, .VECTOR3I),
    (.Transform2D, .TRANSFORM2D), (.Transform2Di, .TRANSFORM2DI), (.Plane, .PLANE),
    (.Quaternion, .QUATERNION), (.AABB, .AABB), (.Basis, .BASIS), (.Transform3D, .TRANSFORM3D),
    (.Color, .COLOR), (.StringName, .STRING_NAME), (.NodePath, .NODE_PATH), (.RID, .RID),
    (.Callable, .CALLABLE), (.Signal, .SIGNAL), (.Dictionary, .DICTIONARY), (.Array, .ARRAY),
    (.PackedByteArray, .PACKED_BYTE_ARRAY), (.PackedInt32Array, .PACKED_INT32_ARRAY),
    (.PackedInt64Array, .PACKED_INT64_ARRAY), (.PackedFloat32Array, .PACKED_FLOAT32_ARRAY),
    (.PackedFloat64Array, .PACKED_FLOAT64_ARRAY), (.PackedStringArray, .PACKED_STRING_ARRAY),
    (.PackedVector2Array, .PACKED_VECTOR2_ARRAY),
    (.PackedVector2iArray, .PACKED_VECTOR2I_ARRAY),
    (.PackedVector3Array, .PACKED_VECTOR3_ARRAY), (.PackedColorArray, .PACKED_COLOR_ARRAY),
    (.PackedVector4Array, .PACKED_VECTOR4_ARRAY)
  ]

/-- The explicit specializations that the header writes: the invocation
`MAKE_TYPED_DICTIONARY_NIL(Variant, Variant::NIL)` followed by the invocations
of `MAKE_TYPED_DICTIONARY`. -/
def explicit_specializations : List Specialization :=
  MAKE_TYPED_DICTIONARY_NIL .Variant .NIL ++
    invocations.flatMap fun r => MAKE_TYPED_DICTIONARY r.1 r.2

/-- The (key type, value type) pairs of the explicit specializations. -/
def generated_pairs : List (BuiltinType × BuiltinType) :=
  explicit_specializations.map fun s => (s.m_type_key, s.m_type_value)

/-- The type list of the header: `Variant`, then the 44 types `bool`, ...,
`PackedVector4Array`. -/
def type_list : List BuiltinType :=
  .Variant :: NIL_rows.map Prod.fst

/-! ## `Vector2i`: further members -/

/-- Modelled from the spec: `Math::sqrt` of `godot_cpp/core/math.hpp`, which is
not part of these sources, applied to an `int32_t` and converted back by the
assignment `l = Math::sqrt(l)`: the floor of the square root. -/
def Math.sqrt (l : Int) : Int := (Nat.sqrt l.toNat : Int)

/-- The `int32_t` division `a / b`, which truncates towards zero; `none` when
the divisor is zero. -/
def div32 (a b : Int) : Option Int :=
  if b = 0 then none else some (wrap32 (Int.tdiv a b))

namespace Vector2i

/-- The operator `Vector2i::operator*(const int32_t &)`. -/
def mul_scalar (v : Vector2i) (rvalue : Int) : Vector2i :=
  ⟨mul32 v.x rvalue, mul32 v.y rvalue⟩

/-- The free operator `operator*(const int32_t p_scalar, const Vector2i &)`. -/
def scalar_mul_int32 (p_scalar : Int) (p_vector : Vector2i) : Vector2i :=
  p_vector.mul_scalar p_scalar

/-- The free operator `operator*(const int64_t p_scalar, const Vector2i &)`:
`p_vector * p_scalar` selects `operator*(const int32_t &)`, and the argument is
converted to `int32_t`. -/
def scalar_mul_int64 (p_scalar : Int) (p_vector : Vector2i) : Vector2i :=
  p_vector.mul_scalar (wrap32 p_scalar)

/-- The method `Vector2i::distance_squared_to`: `(p_to - *this).length_squared()`. -/
def distance_squared_to (v p_to : Vector2i) : Int :=
  (p_to.sub v).length_squared

/-- The method `Vector2i::normalize`, returning the new value of the object;
`none` when a division by zero occurs. -/
def normalize (v : Vector2i) : Option Vector2i :=
  let l := add32 (mul32 v.x v.x) (mul32 v.y v.y)
  if l ≠ 0 then
    let l := Math.sqrt l
    (div32 v.x l).bind fun x => (div32 v.y l).bind fun y => some ⟨x, y⟩
  else
    some v

/-- The method `Vector2i::normalized`: a copy of the object, normalized. -/
def normalized (v : Vector2i) : Option Vector2i :=
  v.normalize

/-- The operator `Vector2i::operator>`. -/
def gt (v p_vec2 : Vector2i) : Bool :=
  if v.x == p_vec2.x then decide (v.y > p_vec2.y) else decide (v.x > p_vec2.x)

/-- The operator `Vector2i::operator<=`. -/
def le (v p_vec2 : Vector2i) : Bool :=
  if v.x == p_vec2.x then decide (v.y ≤ p_vec2.y) else decide (v.x < p_vec2.x)

/-- The operator `Vector2i::operator>=`. -/
def ge (v p_vec2 : Vector2i) : Bool :=
  if v.x == p_vec2.x then decide (v.y ≥ p_vec2.y) else decide (v.x > p_vec2.x)

end Vector2i

namespace Transform2Di

/-- No `int32_t` operation of `xform` overflows on `p_vec`: the exact value of
every product and sum is representable. -/
def xform_no_overflow (t : Transform2Di) (p_vec : Vector2i) : Prop :=
  isInt32 ((t.columns 0).coord 0 * p_vec.x) ∧ isInt32 ((t.columns 1).coord 0 * p_vec.y) ∧
    isInt32 ((t.columns 0).coord 0 * p_vec.x + (t.columns 1).coord 0 * p_vec.y) ∧
    isInt32 ((t.columns 0).coord 1 * p_vec.x) ∧ isInt32 ((t.columns 1).coord 1 * p_vec.y) ∧
    isInt32 ((t.columns 0).coord 1 * p_vec.x + (t.columns 1).coord 1 * p_vec.y) ∧
    isInt32 ((t.columns 0).coord 0 * p_vec.x + (t.columns 1).coord 0 * p_vec.y +
      (t.columns 2).x) ∧
    isInt32 ((t.columns 0).coord 1 * p_vec.x + (t.columns 1).coord 1 * p_vec.y +
      (t.columns 2).y)

instance (t : Transform2Di) (v : Vector2i) : Decidable (t.xform_no_overflow v) := by
  unfold xform_no_overflow; infer_instance

/-- No `int32_t` operation of `xform_inv` overflows on `p_vec`. -/
def xform_inv_no_overflow (t : Transform2Di) (p_vec : Vector2i) : Prop :=
  isInt32 (p_vec.x - (t.columns 2).x) ∧ isInt32 (p_vec.y - (t.columns 2).y) ∧
    isInt32 ((t.columns 0).x * (p_vec.x - (t.columns 2).x)) ∧
    isInt32 ((t.columns 0).y * (p_vec.y - (t.columns 2).y)) ∧
    isInt32 ((t.columns 0).x * (p_vec.x - (t.columns 2).x) +
      (t.columns 0).y * (p_vec.y - (t.columns 2).y)) ∧
    isInt32 ((t.columns 1).x * (p_vec.x - (t.columns 2).x)) ∧
    isInt32 ((t.columns 1).y * (p_vec.y - (t.columns 2).y)) ∧
    isInt32 ((t.columns 1).x * (p_vec.x - (t.columns 2).x) +
      (t.columns 1).y * (p_vec.y - (t.columns 2).y))

instance (t : Transform2Di) (v : Vector2i) : Decidable (t.xform_inv_no_overflow v) := by
  unfold xform_inv_no_overflow; infer_instance

end Transform2Di

/-! ## `GetTypeInfo` of the typed dictionaries -/

/-- The constants of `GDExtensionVariantType` that concern a dictionary. -/
inductive GDExtensionVariantType
  | GDEXTENSION_VARIANT_TYPE_NIL | GDEXTENSION_VARIANT_TYPE_DICTIONARY
  deriving DecidableEq, Repr

/-- The constants of `GDExtensionClassMethodArgumentMetadata` that the header names. -/
inductive GDExtensionClassMethodArgumentMetadata
  | GDEXTENSION_METHOD_ARGUMENT_METADATA_NONE
  deriving DecidableEq, Repr

/-- The property hints that concern a dictionary. -/
inductive PropertyHint
  | PROPERTY_HINT_NONE | PROPERTY_HINT_DICTIONARY_TYPE
  deriving DecidableEq, Repr

/-- The struct `PropertyInfo`, as its constructor
`PropertyInfo(type, name, hint, hint_string)` fills it. -/
structure PropertyInfo where
  type : VariantType
  name : String
  hint : PropertyHint
  hint_string : String
  deriving DecidableEq, Repr

/-- Modelled from the spec: `vformat("%s;%s", a, b)`, whose code is not part of
these sources: the two names separated by a semicolon. -/
def vformat_pair (a b : String) : String := a ++ ";" ++ b

/-- The argument forms for which `GetTypeInfo` is specialized: by value
(`TypedDictionary<K, V>`) and by constant reference
(`const TypedDictionary<K, V> &`). -/
inductive ArgForm
  | by_value | const_ref
  deriving DecidableEq, Repr

/-- One explicit specialization of `GetTypeInfo` written by
`MAKE_TYPED_DICTIONARY_INFO_EXPANDED`: its template arguments and its members. -/
structure InfoSpecialization where
  form : ArgForm
  m_type_key : BuiltinType
  m_variant_type_key : VariantType
  m_type_value : BuiltinType
  m_variant_type_value : VariantType
  VARIANT_TYPE : GDExtensionVariantType
  METADATA : GDExtensionClassMethodArgumentMetadata
  get_class_info : PropertyInfo
  deriving DecidableEq, Repr

/-- The expression
`m_variant_type == Variant::Type::NIL ? "Variant" : Variant::get_type_name(m_variant_type)`;
`Variant::get_type_name` belongs to the host engine and is a parameter. -/
def type_name (get_type_name : VariantType → String) (m_variant_type : VariantType) : String :=
  if m_variant_type = .NIL then "Variant" else get_type_name m_variant_type

/-- The body of `get_class_info()` in `MAKE_TYPED_DICTIONARY_INFO_EXPANDED`;
`String()` is the empty string. -/
def expanded_class_info (get_type_name : VariantType → String)
    (m_variant_type_key m_variant_type_value : VariantType) : PropertyInfo :=
  ⟨.DICTIONARY, "", .PROPERTY_HINT_DICTIONARY_TYPE,
    vformat_pair (type_name get_type_name m_variant_type_key)
      (type_name get_type_name m_variant_type_value)⟩

/-- The macro `MAKE_TYPED_DICTIONARY_INFO_EXPANDED`: the specialization for
`TypedDictionary<K, V>`, then the one for `const TypedDictionary<K, V> &`. -/
def MAKE_TYPED_DICTIONARY_INFO_EXPANDED (get_type_name : VariantType → String)
    (m_type_key : BuiltinType) (m_variant_type_key : VariantType) (m_type_value : BuiltinType)
    (m_variant_type_value : VariantType) : List InfoSpecialization :=
  [⟨.by_value, m_type_key, m_variant_type_key, m_type_value, m_variant_type_value,
      .GDEXTENSION_VARIANT_TYPE_DICTIONARY, .GDEXTENSION_METHOD_ARGUMENT_METADATA_NONE,
      expanded_class_info get_type_name m_variant_type_key m_variant_type_value⟩,
    ⟨.const_ref, m_type_key, m_variant_type_key, m_type_value, m_variant_type_value,
      .GDEXTENSION_VARIANT_TYPE_DICTIONARY, .GDEXTENSION_METHOD_ARGUMENT_METADATA_NONE,
      expanded_class_info get_type_name m_variant_type_key m_variant_type_value⟩]

/-- The value type and tag of the 44 `MAKE_TYPED_DICTIONARY_INFO_EXPANDED`
lines of the body of `MAKE_TYPED_DICTIONARY_INFO_NIL`, in order. -/
def INFO_NIL_rows : List (BuiltinType × VariantType) :=
  [
    (.bool, .BOOL), (.uint8_t, .INT), (.int8_t, .INT), (.uint16_t, .INT), (.int16_t, .INT),
    (.uint32_t, .INT), (.int32_t, .INT), (.uint64_t, .INT), (.int64_t, .INT), (.float, .FLOAT),
    (.double, .FLOAT), (.String, .STRING), (.Vector2, .VECTOR2), (.Vector2i, .VECTOR2I),
    (.Rect2, .RECT2), (.Rect2i, .RECT2I), (.Vector3, .VECTOR3), (.Vector3i, .VECTOR3I),
    (.Transform2D, .TRANSFORM2D), (.Transform2Di, .TRANSFORM2DI), (.Plane, .PLANE),
    (.Quaternion, .QUATERNION), (.AABB, .AABB), (.Basis, .BASIS), (.Transform3D, .TRANSFORM3D),
    (.Color, .COLOR), (.StringName, .STRING_NAME), (.NodePath, .NODE_PATH), (.RID, .RID),
    (.Callable, .CALLABLE), (.Signal, .SIGNAL), (.Dictionary, .DICTIONARY), (.Array, .ARRAY),
    (.PackedByteArray, .PACKED_BYTE_ARRAY), (.PackedInt32Array, .PACKED_INT32_ARRAY),
    (.PackedInt64Array, .PACKED_INT64_ARRAY), (.PackedFloat32Array, .PACKED_FLOAT32_ARRAY),
    (.PackedFloat64Array, .PACKED_FLOAT64_ARRAY), (.PackedStringArray, .PACKED_STRING_ARRAY),
    (.PackedVector2Array, .PACKED_VECTOR2_ARRAY),
    (.PackedVector2iArray, .PACKED_VECTOR2I_ARRAY),
    (.PackedVector3Array, .PACKED_VECTOR3_ARRAY), (.PackedVector4Array, .PACKED_VECTOR4_ARRAY),
    (.PackedColorArray, .PACKED_COLOR_ARRAY)
  ]

/-- The macro `MAKE_TYPED_DICTIONARY_INFO_NIL`. Its first line,
`MAKE_TYPED_DICTIONARY_INFO_WITH_OBJECT`, writes partial specializations only. -/
def MAKE_TYPED_DICTIONARY_INFO_NIL (get_type_name : VariantType → String)
    (m_type : BuiltinType) (m_variant_type : VariantType) : List InfoSpecialization :=
  INFO_NIL_rows.flatMap fun r =>
    MAKE_TYPED_DICTIONARY_INFO_EXPANDED get_type_name m_type m_variant_type r.1 r.2

/-- The macro `MAKE_TYPED_DICTIONARY_INFO`. -/
def MAKE_TYPED_DICTIONARY_INFO (get_type_name : VariantType → String) (m_type : BuiltinType)
    (m_variant_type : VariantType) : List InfoSpecialization :=
  MAKE_TYPED_DICTIONARY_INFO_EXPANDED get_type_name m_type m_variant_type .Variant .NIL ++
    MAKE_TYPED_DICTIONARY_INFO_NIL get_type_name m_type m_variant_type

/-- The arguments of the 44 invocations of `MAKE_TYPED_DICTIONARY_INFO`, in order. -/
def INFO_invocations : List (BuiltinType × VariantType) :=
  [
    (.bool, .BOOL), (.uint8_t, .INT), (.int8_t, .INT), (.uint16_t, .INT), (.int16_t, .INT),
    (.uint32_t, .INT), (.int32_t, .INT), (.uint64_t, .INT), (.int64_t, .INT), (.float, .FLOAT),
    (.double, .FLOAT), (.String, .STRING), (.Vector2, .VECTOR2), (.Vector2i, .VECTOR2I),
    (.Rect2, .RECT2), (.Rect2i, .RECT2I), (.Vector3, .VECTOR3), (.Vector3i, .VECTOR3I),
    (.Transform2D, .TRANSFORM2D), (.Transform2Di, .TRANSFORM2DI), (.Plane, .PLANE),
    (.Quaternion, .QUATERNION), (.AABB, .AABB), (.Basis, .BASIS), (.Transform3D, .TRANSFORM3D),
    (.Color, .COLOR), (.StringName, .STRING_NAME), (.NodePath, .NODE_PATH), (.RID, .RID),
    (.Callable, .CALLABLE), (.Signal, .SIGNAL), (.Dictionary, .DICTIONARY), (.Array, .ARRAY),
    (.PackedByteArray, .PACKED_BYTE_ARRAY), (.PackedInt32Array, .PACKED_INT32_ARRAY),
    (.PackedInt64Array, .PACKED_INT64_ARRAY), (.PackedFloat32Array, .PACKED_FLOAT32_ARRAY),
    (.PackedFloat64Array, .PACKED_FLOAT64_ARRAY), (.PackedStringArray, .PACKED_STRING_ARRAY),
    (.PackedVector2Array, .PACKED_VECTOR2_ARRAY),
    (.PackedVector2iArray, .PACKED_VECTOR2I_ARRAY),
    (.PackedVector3Array, .PACKED_VECTOR3_ARRAY), (.PackedVector4Array, .PACKED_VECTOR4_ARRAY),
    (.PackedColorArray, .PACKED_COLOR_ARRAY)
  ]

/-- The explicit specializations of `GetTypeInfo` that the header writes: the
invocation `MAKE_TYPED_DICTIONARY_INFO_NIL(Variant, Variant::NIL)` followed by
the invocations of `MAKE_TYPED_DICTIONARY_INFO`. -/
def info_specializations (get_type_name : VariantType → String) : List InfoSpecialization :=
  MAKE_TYPED_DICTIONARY_INFO_NIL get_type_name .Variant .NIL ++
    INFO_invocations.flatMap fun r => MAKE_TYPED_DICTIONARY_INFO get_type_name r.1 r.2

/-- Modelled from the spec: a stand-in for the host engine's
`Variant::get_type_name`, giving a few of the engine's names. It serves to run
the code at concrete inputs. -/
def ref_get_type_name : VariantType → String
  | .BOOL => "bool"
  | .INT => "int"
  | .FLOAT => "float"
  | .STRING => "String"
  | .VECTOR2I => "Vector2i"
  | _ => "?"

/-! ## `Vector2i`: the perpendicular vector -/

namespace Vector2i

/-- The method `Vector2i::orthogonal`: `Vector2i(y, -x)`. -/
def orthogonal (v : Vector2i) : Vector2i :=
  ⟨v.y, neg32 v.x⟩

end Vector2i

/-! ## Facts on the reductions -/

theorem wrap32_modEq (z : Int) : wrap32 z ≡ z [ZMOD 2 ^ 32] := by
  unfold wrap32 Int.ModEq
  omega

theorem wrap32_isInt32 (z : Int) : isInt32 (wrap32 z) := by
  unfold wrap32 isInt32
  omega

theorem wrap32_of_isInt32 {z : Int} (h : isInt32 z) : wrap32 z = z := by
  unfold isInt32 at h
  unfold wrap32
  omega

theorem wrap32_congr {a b : Int} (h : a ≡ b [ZMOD 2 ^ 32]) : wrap32 a = wrap32 b := by
  unfold Int.ModEq at h
  unfold wrap32
  omega

/-- The reduction is invisible in the ring of integers modulo `2 ^ 32`. -/
theorem wrap32_cast (z : Int) : ((wrap32 z : Int) : ZMod (2 ^ 32)) = (z : ZMod (2 ^ 32)) := by
  have h := wrap32_modEq z
  exact (ZMod.intCast_eq_intCast_iff _ _ _).2 (by exact_mod_cast h)

/-- Two integers with the same image modulo `2 ^ 32` have the same reduction. -/
theorem wrap32_eq_of_cast {a b : Int}
    (h : (a : ZMod (2 ^ 32)) = (b : ZMod (2 ^ 32))) : wrap32 a = wrap32 b := by
  have h2 := (ZMod.intCast_eq_intCast_iff _ _ _).1 h
  exact wrap32_congr (by exact_mod_cast h2)

/-! ## Claims on `Vector2i` -/

/-- C1: `a.dot(b)` is `a.x*b.x + a.y*b.y` evaluated in 32-bit arithmetic (the
exact integer value reduced to `int32_t`, whatever the intermediate
reductions), and `dot` is commutative. -/
theorem C1_dot_formula_comm (a b : Vector2i) :
    a.dot b = wrap32 (a.x * b.x + a.y * b.y) ∧ a.dot b = b.dot a := by
  constructor
  · unfold Vector2i.dot add32 mul32
    apply wrap32_eq_of_cast
    push_cast
    rw [wrap32_cast, wrap32_cast]
    push_cast
    rfl
  · unfold Vector2i.dot mul32
    rw [mul_comm a.x b.x, mul_comm a.y b.y]

/-! ## Claims on `Transform2Di` -/

theorem Transform2Di.columns_zero (t : Transform2Di) : t.columns 0 = t.col0 := rfl

theorem Transform2Di.columns_one (t : Transform2Di) : t.columns 1 = t.col1 := rfl

theorem Transform2Di.columns_two (t : Transform2Di) : t.columns 2 = t.col2 := rfl

theorem Vector2i.coord_zero (v : Vector2i) : v.coord 0 = v.x := rfl

theorem Vector2i.coord_one (v : Vector2i) : v.coord 1 = v.y := rfl

theorem Vector2i.dot_cast (a b : Vector2i) :
    ((a.dot b : Int) : ZMod (2 ^ 32)) = (a.x : ZMod (2 ^ 32)) * b.x + a.y * b.y := by
  unfold Vector2i.dot add32 mul32
  rw [wrap32_cast]
  push_cast
  rw [wrap32_cast, wrap32_cast]
  push_cast
  rfl

theorem Transform2Di.tdotx_cast (t : Transform2Di) (v : Vector2i) :
    ((t.tdotx v : Int) : ZMod (2 ^ 32)) = (t.col0.x : ZMod (2 ^ 32)) * v.x + t.col1.x * v.y := by
  unfold Transform2Di.tdotx add32 mul32
  rw [wrap32_cast]
  push_cast
  rw [wrap32_cast, wrap32_cast]
  push_cast
  rfl

theorem Transform2Di.tdoty_cast (t : Transform2Di) (v : Vector2i) :
    ((t.tdoty v : Int) : ZMod (2 ^ 32)) = (t.col0.y : ZMod (2 ^ 32)) * v.x + t.col1.y * v.y := by
  unfold Transform2Di.tdoty add32 mul32
  rw [wrap32_cast]
  push_cast
  rw [wrap32_cast, wrap32_cast]
  push_cast
  rfl

theorem add32_cast (a b : Int) :
    ((add32 a b : Int) : ZMod (2 ^ 32)) = (a : ZMod (2 ^ 32)) + b := by
  unfold add32
  rw [wrap32_cast]
  push_cast
  rfl

theorem sub32_cast (a b : Int) :
    ((sub32 a b : Int) : ZMod (2 ^ 32)) = (a : ZMod (2 ^ 32)) - b := by
  unfold sub32
  rw [wrap32_cast]
  push_cast
  rfl

/-- An `int32_t` value is determined by its class modulo `2 ^ 32`. -/
theorem eq_of_cast_of_isInt32 {a b : Int} (ha : isInt32 a) (hb : isInt32 b)
    (h : (a : ZMod (2 ^ 32)) = (b : ZMod (2 ^ 32))) : a = b := by
  rw [← wrap32_of_isInt32 ha, ← wrap32_of_isInt32 hb]
  exact wrap32_eq_of_cast h

theorem Vector2i.dot_isInt32 (a b : Vector2i) : isInt32 (a.dot b) := wrap32_isInt32 _

theorem Transform2Di.tdotx_isInt32 (t : Transform2Di) (v : Vector2i) : isInt32 (t.tdotx v) :=
  wrap32_isInt32 _

theorem Transform2Di.tdoty_isInt32 (t : Transform2Di) (v : Vector2i) : isInt32 (t.tdoty v) :=
  wrap32_isInt32 _

/-- An `int32_t` value is the reduction of any integer in its class modulo `2 ^ 32`. -/
theorem eq_wrap32_of_cast {a b : Int} (ha : isInt32 a)
    (h : (a : ZMod (2 ^ 32)) = (b : ZMod (2 ^ 32))) : a = wrap32 b := by
  rw [← wrap32_of_isInt32 ha]
  exact wrap32_eq_of_cast h

/-- C2: for a transform whose basis is orthonormal (in the 32-bit `dot`) and
a vector `v` of `int32_t` members, `xform_inv` undoes `xform`:
`t.xform_inv(t.xform(v)) == v` in 32-bit wrapping arithmetic. -/
theorem C2_xform_inv_xform_orthonormal (t : Transform2Di) (v : Vector2i)
    (ht : t.orthonormal) (hv : v.valid) : t.xform_inv (t.xform v) = v := by
  obtain ⟨h00, h11, h01⟩ := ht
  have e00 := congrArg (Int.cast : Int → ZMod (2 ^ 32)) h00
  have e11 := congrArg (Int.cast : Int → ZMod (2 ^ 32)) h11
  have e01 := congrArg (Int.cast : Int → ZMod (2 ^ 32)) h01
  rw [Vector2i.dot_cast] at e00 e11 e01
  simp only [Transform2Di.columns_zero, Transform2Di.columns_one] at e00 e11 e01
  push_cast at e00 e11 e01
  have hx : ((t.col0).dot ((t.xform v).sub t.col2)) = v.x := by
    apply eq_of_cast_of_isInt32 (Vector2i.dot_isInt32 _ _) hv.1
    rw [Vector2i.dot_cast]
    simp only [Vector2i.sub, Transform2Di.xform, Vector2i.add, Transform2Di.columns_two,
      sub32_cast, add32_cast, Transform2Di.tdotx_cast, Transform2Di.tdoty_cast]
    linear_combination (v.x : ZMod (2 ^ 32)) * e00 + (v.y : ZMod (2 ^ 32)) * e01
  have hy : ((t.col1).dot ((t.xform v).sub t.col2)) = v.y := by
    apply eq_of_cast_of_isInt32 (Vector2i.dot_isInt32 _ _) hv.2
    rw [Vector2i.dot_cast]
    simp only [Vector2i.sub, Transform2Di.xform, Vector2i.add, Transform2Di.columns_two,
      sub32_cast, add32_cast, Transform2Di.tdotx_cast, Transform2Di.tdoty_cast]
    linear_combination (v.x : ZMod (2 ^ 32)) * e01 + (v.y : ZMod (2 ^ 32)) * e11
  show Vector2i.mk ((t.columns 0).dot ((t.xform v).sub (t.columns 2)))
      ((t.columns 1).dot ((t.xform v).sub (t.columns 2))) = v
  rw [Transform2Di.columns_zero, Transform2Di.columns_one, Transform2Di.columns_two, hx, hy]

/-- Witness of C2: the quarter turn with origin `(5, -7)`, applied to `(3, 4)`. -/
theorem C2_xform_inv_xform_orthonormal_witness :
    (Transform2Di.mk ⟨0, 1⟩ ⟨-1, 0⟩ ⟨5, -7⟩).orthonormal ∧ (Vector2i.mk 3 4).valid ∧
      (Transform2Di.mk ⟨0, 1⟩ ⟨-1, 0⟩ ⟨5, -7⟩).xform_inv
        ((Transform2Di.mk ⟨0, 1⟩ ⟨-1, 0⟩ ⟨5, -7⟩).xform ⟨3, 4⟩) = ⟨3, 4⟩ :=
  ⟨by decide, by decide,
    C2_xform_inv_xform_orthonormal ⟨⟨0, 1⟩, ⟨-1, 0⟩, ⟨5, -7⟩⟩ ⟨3, 4⟩ (by decide) (by decide)⟩

/-- C3: the columns act as basis vectors. `t.basis_xform(v)` is
`(columns[0][0]*v.x + columns[1][0]*v.y, columns[0][1]*v.x + columns[1][1]*v.y)`
in 32-bit arithmetic, so that `basis_xform((1,0)) == columns[0]` and
`basis_xform((0,1)) == columns[1]` for a transform of `int32_t` members. -/
theorem C3_basis_xform_columns (t : Transform2Di) (v : Vector2i) (ht : t.valid) :
    t.basis_xform v =
        ⟨wrap32 ((t.columns 0).coord 0 * v.x + (t.columns 1).coord 0 * v.y),
          wrap32 ((t.columns 0).coord 1 * v.x + (t.columns 1).coord 1 * v.y)⟩ ∧
      t.basis_xform ⟨1, 0⟩ = t.columns 0 ∧ t.basis_xform ⟨0, 1⟩ = t.columns 1 := by
  obtain ⟨⟨h0x, h0y⟩, ⟨h1x, h1y⟩, -⟩ := ht
  have hx : ∀ w : Vector2i, t.tdotx w = wrap32 (t.col0.x * w.x + t.col1.x * w.y) := by
    intro w
    apply eq_wrap32_of_cast (t.tdotx_isInt32 w)
    rw [Transform2Di.tdotx_cast]
    push_cast
    rfl
  have hy : ∀ w : Vector2i, t.tdoty w = wrap32 (t.col0.y * w.x + t.col1.y * w.y) := by
    intro w
    apply eq_wrap32_of_cast (t.tdoty_isInt32 w)
    rw [Transform2Di.tdoty_cast]
    push_cast
    rfl
  simp only [Transform2Di.basis_xform, Transform2Di.columns_zero, Transform2Di.columns_one,
    Vector2i.coord_zero, Vector2i.coord_one, hx, hy]
  refine ⟨trivial, ?_, ?_⟩
  · simp only [mul_one, mul_zero, add_zero, wrap32_of_isInt32 h0x, wrap32_of_isInt32 h0y]
  · simp only [mul_one, mul_zero, zero_add, wrap32_of_isInt32 h1x, wrap32_of_isInt32 h1y]

/-- Witness of C3: a shear with large entries, applied to `(2, -3)`. -/
theorem C3_basis_xform_columns_witness :
    (Transform2Di.mk ⟨2147483647, -5⟩ ⟨7, -2147483648⟩ ⟨1, 2⟩).valid ∧
      (Transform2Di.mk ⟨2147483647, -5⟩ ⟨7, -2147483648⟩ ⟨1, 2⟩).basis_xform ⟨1, 0⟩ =
        ⟨2147483647, -5⟩ ∧
      (Transform2Di.mk ⟨2147483647, -5⟩ ⟨7, -2147483648⟩ ⟨1, 2⟩).basis_xform ⟨0, 1⟩ =
        ⟨7, -2147483648⟩ :=
  ⟨by decide,
    (C3_basis_xform_columns ⟨⟨2147483647, -5⟩, ⟨7, -2147483648⟩, ⟨1, 2⟩⟩ ⟨2, -3⟩
      (by decide)).2⟩

/-- C4: `xform` is `basis_xform` followed by the translation by the origin,
`xform_inv` is the translation by minus the origin followed by
`basis_xform_inv`; in particular, for a transform of `int32_t` members,
`t.xform((0,0)) == t.get_origin()` and `t.xform_inv(t.get_origin()) == (0,0)`. -/
theorem C4_xform_decomposition (t : Transform2Di) (v : Vector2i) (ht : t.valid) :
    t.xform v = (t.basis_xform v).add t.get_origin ∧
      t.xform_inv v = t.basis_xform_inv (v.sub t.get_origin) ∧
      t.xform ⟨0, 0⟩ = t.get_origin ∧ t.xform_inv t.get_origin = ⟨0, 0⟩ := by
  obtain ⟨-, -, h2x, h2y⟩ := ht
  refine ⟨rfl, rfl, ?_, ?_⟩
  · simp only [Transform2Di.xform, Transform2Di.get_origin, Transform2Di.tdotx,
      Transform2Di.tdoty, Transform2Di.columns_two, Vector2i.add, add32, mul32, mul_zero,
      add_zero, zero_add]
    have h0 : wrap32 0 = 0 := by decide
    simp only [h0, zero_add, wrap32_of_isInt32 h2x, wrap32_of_isInt32 h2y]
  · simp only [Transform2Di.xform_inv, Transform2Di.get_origin, Vector2i.sub, Vector2i.dot,
      sub32, add32, mul32, sub_self]
    have h0 : wrap32 0 = 0 := by decide
    simp only [h0, mul_zero, add_zero]

/-- Witness of C4: a transform with extreme origin, applied to `(9, -9)`. -/
theorem C4_xform_decomposition_witness :
    (Transform2Di.mk ⟨3, -5⟩ ⟨7, 11⟩ ⟨2147483647, -2147483648⟩).valid ∧
      (Transform2Di.mk ⟨3, -5⟩ ⟨7, 11⟩ ⟨2147483647, -2147483648⟩).xform ⟨0, 0⟩ =
        ⟨2147483647, -2147483648⟩ ∧
      (Transform2Di.mk ⟨3, -5⟩ ⟨7, 11⟩ ⟨2147483647, -2147483648⟩).xform_inv
        ⟨2147483647, -2147483648⟩ = ⟨0, 0⟩ :=
  ⟨by decide,
    (C4_xform_decomposition ⟨⟨3, -5⟩, ⟨7, 11⟩, ⟨2147483647, -2147483648⟩⟩ ⟨9, -9⟩
      (by decide)).2.2⟩

/-- C5: the default-constructed `Transform2Di` has columns `(1,0)`, `(0,1)`,
`(0,0)`, and it is the identity: `xform(v) == v` and `xform_inv(v) == v` for
every vector `v` of `int32_t` members. -/
theorem C5_default_is_identity (v : Vector2i) (hv : v.valid) :
    Transform2Di.default = ⟨⟨1, 0⟩, ⟨0, 1⟩, ⟨0, 0⟩⟩ ∧
      Transform2Di.default.xform v = v ∧ Transform2Di.default.xform_inv v = v := by
  obtain ⟨hx, hy⟩ := hv
  have hd : Transform2Di.default = ⟨⟨1, 0⟩, ⟨0, 1⟩, ⟨0, 0⟩⟩ := by decide
  refine ⟨hd, ?_, ?_⟩
  · rw [hd]
    simp only [Transform2Di.xform, Transform2Di.tdotx, Transform2Di.tdoty,
      Transform2Di.columns_zero, Transform2Di.columns_one, Transform2Di.columns_two,
      Vector2i.coord_zero, Vector2i.coord_one, Vector2i.add, add32, mul32, one_mul, zero_mul,
      add_zero, zero_add]
    have h0 : wrap32 0 = 0 := by decide
    simp only [h0, add_zero, zero_add, wrap32_of_isInt32 hx, wrap32_of_isInt32 hy]
  · rw [hd]
    simp only [Transform2Di.xform_inv, Transform2Di.columns_zero, Transform2Di.columns_one,
      Transform2Di.columns_two, Vector2i.sub, Vector2i.dot, sub32, add32, mul32, one_mul,
      zero_mul, sub_zero]
    have h0 : wrap32 0 = 0 := by decide
    simp only [h0, add_zero, zero_add, wrap32_of_isInt32 hx, wrap32_of_isInt32 hy]

/-- Witness of C5: the default transform fixes `(-2147483648, 2147483647)`. -/
theorem C5_default_is_identity_witness :
    (Vector2i.mk (-2147483648) 2147483647).valid ∧
      Transform2Di.default.xform ⟨-2147483648, 2147483647⟩ = ⟨-2147483648, 2147483647⟩ ∧
      Transform2Di.default.xform_inv ⟨-2147483648, 2147483647⟩ = ⟨-2147483648, 2147483647⟩ :=
  ⟨by decide, (C5_default_is_identity ⟨-2147483648, 2147483647⟩ (by decide)).2⟩

/-! ## Claims on `Vector2i`: squared length and order -/

theorem wrap64_of_isInt64 {z : Int} (h : isInt64 z) : wrap64 z = z := by
  unfold isInt64 at h
  unfold wrap64
  omega

/-- The square of an `int32_t` is at most `2 ^ 62`, and at most
`(2 ^ 31 - 1) ^ 2` unless the value is `INT32_MIN`. -/
theorem sq_bounds_of_isInt32 {z : Int} (h : isInt32 z) :
    0 ≤ z * z ∧ z * z ≤ 2 ^ 62 ∧ (z ≠ -2 ^ 31 → z * z ≤ 2 ^ 62 - 2 ^ 32 + 1) := by
  obtain ⟨h1, h2⟩ := h
  refine ⟨mul_self_nonneg z, ?_, ?_⟩
  · nlinarith [mul_nonneg (by linarith : (0 : Int) ≤ z + 2 ^ 31) (by linarith : (0 : Int) ≤ 2 ^ 31 - z)]
  · intro hne
    have h3 : -2 ^ 31 + 1 ≤ z := by omega
    nlinarith [mul_nonneg (by linarith : (0 : Int) ≤ z + (2 ^ 31 - 1))
      (by linarith : (0 : Int) ≤ 2 ^ 31 - 1 - z)]

/-- C9, as stated, fails at `(INT32_MIN, INT32_MIN)`: the exact value
`x*x + y*y` is `2 ^ 63`, the 64-bit sum wraps to `-2 ^ 63`, which is negative. -/
theorem C9_length_squared_wraps_at_min :
    (Vector2i.mk (-2147483648) (-2147483648)).valid ∧
      (Vector2i.mk (-2147483648) (-2147483648)).length_squared ≠
        (-2147483648 : Int) * (-2147483648) + (-2147483648) * (-2147483648) ∧
      (Vector2i.mk (-2147483648) (-2147483648)).length_squared = -9223372036854775808 ∧
      ¬ (0 ≤ (Vector2i.mk (-2147483648) (-2147483648)).length_squared) := by
  decide

/-- C9 (amended): for every `Vector2i` of `int32_t` members other than
`(INT32_MIN, INT32_MIN)`, `length_squared()` is the exact integer
`x*x + y*y` (no 64-bit operation wraps) and it is non-negative. -/
theorem C9_length_squared_exact (v : Vector2i) (hv : v.valid)
    (hne : ¬ (v.x = -2 ^ 31 ∧ v.y = -2 ^ 31)) :
    v.length_squared = v.x * v.x + v.y * v.y ∧ 0 ≤ v.length_squared ∧
      mul64 v.x v.x = v.x * v.x ∧ mul64 v.y v.y = v.y * v.y := by
  obtain ⟨hx, hy⟩ := hv
  obtain ⟨hx0, hx1, hx2⟩ := sq_bounds_of_isInt32 hx
  obtain ⟨hy0, hy1, hy2⟩ := sq_bounds_of_isInt32 hy
  have ex : mul64 v.x v.x = v.x * v.x := by
    unfold mul64
    exact wrap64_of_isInt64 ⟨by linarith, by linarith⟩
  have ey : mul64 v.y v.y = v.y * v.y := by
    unfold mul64
    exact wrap64_of_isInt64 ⟨by linarith, by linarith⟩
  have hsum : v.x * v.x + v.y * v.y < 2 ^ 63 := by
    by_cases h : v.x = -2 ^ 31
    · have h2 := hy2 (fun hy3 => hne ⟨h, hy3⟩)
      linarith
    · have h2 := hx2 h
      linarith
  have e : v.length_squared = v.x * v.x + v.y * v.y := by
    unfold Vector2i.length_squared add64
    rw [ex, ey]
    exact wrap64_of_isInt64 ⟨by linarith, hsum⟩
  refine ⟨e, ?_, ex, ey⟩
  rw [e]
  linarith

/-- Witness of C9 (amended): the vector `(INT32_MIN, INT32_MAX)`. -/
theorem C9_length_squared_exact_witness :
    (Vector2i.mk (-2147483648) 2147483647).valid ∧
      (Vector2i.mk (-2147483648) 2147483647).length_squared = 9223372032559808513 := by
  refine ⟨by decide, ?_⟩
  rw [(C9_length_squared_exact ⟨-2147483648, 2147483647⟩ (by decide) (by decide)).1]
  rfl

/-- C10: `operator<` is the strict lexicographic order on `(x, y)`, exactly
one of `a < b`, `a == b`, `b < a` holds, and `operator<` is transitive. -/
theorem C10_lt_strict_total_order (a b c : Vector2i) :
    (a.lt b = true ↔ a.x < b.x ∨ (a.x = b.x ∧ a.y < b.y)) ∧
      ((a.lt b = true ∧ a.eq b = false ∧ b.lt a = false) ∨
        (a.lt b = false ∧ a.eq b = true ∧ b.lt a = false) ∨
        (a.lt b = false ∧ a.eq b = false ∧ b.lt a = true)) ∧
      (a.eq b = true ↔ a = b) ∧
      (a.lt b = true → b.lt c = true → a.lt c = true) := by
  obtain ⟨ax, ay⟩ := a
  obtain ⟨bx, b_y⟩ := b
  obtain ⟨cx, cy⟩ := c
  simp only [Vector2i.lt, Vector2i.eq, Vector2i.mk.injEq, beq_iff_eq, Bool.and_eq_true,
    Bool.and_eq_false_iff, beq_eq_false_iff_ne, ne_eq]
  refine ⟨?_, ?_, trivial, ?_⟩
  · split_ifs with h <;> simp only [decide_eq_true_eq] <;> omega
  · split_ifs with h1 h2 h2 <;> simp only [decide_eq_true_eq, decide_eq_false_iff_not] <;> omega
  · split_ifs with h1 h2 h3 h3 h2 h3 h3 <;> simp only [decide_eq_true_eq] <;> omega

/-- Witness of C10: `(1, 5) < (2, -7) < (2, 0)`, hence `(1, 5) < (2, 0)`. -/
theorem C10_lt_strict_total_order_witness :
    (Vector2i.mk 1 5).lt ⟨2, -7⟩ = true ∧ (Vector2i.mk 2 (-7)).lt ⟨2, 0⟩ = true ∧
      (Vector2i.mk 1 5).lt ⟨2, 0⟩ = true :=
  ⟨by decide, by decide,
    (C10_lt_strict_total_order ⟨1, 5⟩ ⟨2, -7⟩ ⟨2, 0⟩).2.2.2 (by decide) (by decide)⟩

/-! ## Claims on `TypedDictionary` -/

/-- The stand-in `refOps` meets `DictionaryLaws`. -/
theorem refOps_laws : DictionaryLaws refOps RefDictionary.typing where
  set_typed_new := fun _ => rfl
  is_same_typed_sound := fun d p h => by
    have h2 : d.typing = p.typing := of_decide_eq_true h
    exact h2.symm
  operator_assign_typing := fun _ _ => rfl
  assign_typing := fun _ _ => rfl

/-- C6, at an explicit specialization: whatever the engine's `Dictionary`, when
`p` is not same-typed as `d` the assignment `d = p` of a specialization written
by `MAKE_TYPED_DICTIONARY_EXPANDED` leaves `d` unchanged and calls nothing, but
the error it reports reads "Cannot assign an dictionary ...", which is not the
message "Cannot assign a dictionary ..." of the primary template. -/
theorem C6_expanded_assign_error_message {D Var : Type} (ops : DictionaryOps D Var)
    (m_variant_type_key m_variant_type_value : VariantType) (d p : D)
    (h : ops.is_same_typed d p = false) :
    TypedDictionary.operator_assign ops (.expanded m_variant_type_key m_variant_type_value) d p =
        ⟨d, [.error "Cannot assign an dictionary with a different element type."]⟩ ∧
      TypedDictionary.assign_error_message (.expanded m_variant_type_key m_variant_type_value) ≠
        "Cannot assign a dictionary with a different element type." ∧
      TypedDictionary.assign_error_message (.primary "K" "V") =
        "Cannot assign a dictionary with a different element type." := by
  refine ⟨?_, ?_, rfl⟩
  · simp only [TypedDictionary.operator_assign, h, Bool.not_false, if_true,
      TypedDictionary.assign_error_message]
  · show "Cannot assign an dictionary with a different element type." ≠
      "Cannot assign a dictionary with a different element type."
    decide

/-- Witness of C6: a `TypedDictionary<int32_t, String>` assigned an untyped
`Dictionary`. -/
theorem C6_expanded_assign_error_message_witness :
    refOps.is_same_typed (TypedDictionary.new refOps (.expanded .INT .STRING)).self refOps.new =
        false ∧
      TypedDictionary.operator_assign refOps (.expanded .INT .STRING)
          (TypedDictionary.new refOps (.expanded .INT .STRING)).self refOps.new =
        ⟨(TypedDictionary.new refOps (.expanded .INT .STRING)).self,
          [.error "Cannot assign an dictionary with a different element type."]⟩ :=
  ⟨by decide,
    (C6_expanded_assign_error_message refOps .INT .STRING
      (TypedDictionary.new refOps (.expanded .INT .STRING)).self refOps.new (by decide)).1⟩

/-- The constructors of a template whose `set_typed` call is written with the
arguments `kt`, `kc`, `Variant()`, `vt`, `vc`, `Variant()`: what they call, in
order, and the typing of the dictionary they build. -/
theorem TypedDictionary.constructor_spec {D Var : Type} (ops : DictionaryOps D Var)
    (typing : D → Typing Var) (laws : DictionaryLaws ops typing) (tpl : Template)
    (kt : VariantType) (kc : String) (vt : VariantType) (vc : String)
    (hty : TypedDictionary.declared ops tpl =
      Typing.mk kt kc ops.nil_variant vt vc ops.nil_variant)
    (p : D) (p_variant : Var) :
    (typing (TypedDictionary.from_dictionary ops (tpl) p).self =
        Typing.mk kt kc ops.nil_variant vt vc ops.nil_variant ∧
      TypedDictionary.new ops (tpl) =
        Outcome.mk (ops.set_typed ops.new kt kc ops.nil_variant vt vc ops.nil_variant)
          [Call.set_typed (Typing.mk kt kc ops.nil_variant vt vc ops.nil_variant)] ∧
      (ops.is_same_typed (ops.set_typed ops.new kt kc ops.nil_variant vt vc ops.nil_variant) p = true →
        TypedDictionary.from_dictionary ops (tpl) p =
            Outcome.mk
              (ops.operator_assign (ops.set_typed ops.new kt kc ops.nil_variant vt vc ops.nil_variant) p)
              [Call.set_typed (Typing.mk kt kc ops.nil_variant vt vc ops.nil_variant),
                Call.operator_assign p] ∧
          typing p = Typing.mk kt kc ops.nil_variant vt vc ops.nil_variant) ∧
      (ops.is_same_typed (ops.set_typed ops.new kt kc ops.nil_variant vt vc ops.nil_variant) p = false →
        TypedDictionary.from_dictionary ops (tpl) p =
          Outcome.mk
            (ops.assign (ops.set_typed ops.new kt kc ops.nil_variant vt vc ops.nil_variant) p)
            [Call.set_typed (Typing.mk kt kc ops.nil_variant vt vc ops.nil_variant),
              Call.assign p]) ∧
      TypedDictionary.from_variant ops (tpl) p_variant =
        TypedDictionary.from_dictionary ops (tpl) (ops.from_variant p_variant)) := by
  have hcall : ∀ d : D, TypedDictionary.call_set_typed ops tpl d =
      ops.set_typed d kt kc ops.nil_variant vt vc ops.nil_variant := by
    intro d
    simp only [TypedDictionary.call_set_typed, hty]
  have hnew : typing (ops.set_typed ops.new kt kc ops.nil_variant vt vc ops.nil_variant) =
      Typing.mk kt kc ops.nil_variant vt vc ops.nil_variant :=
    laws.set_typed_new (Typing.mk kt kc ops.nil_variant vt vc ops.nil_variant)
  refine ⟨?_, ?_, ?_, ?_, rfl⟩
  · unfold TypedDictionary.from_dictionary
    rw [hcall]
    by_cases hs : ops.is_same_typed
        (ops.set_typed ops.new kt kc ops.nil_variant vt vc ops.nil_variant) p = true
    · simp only [hs, if_true]
      rw [laws.operator_assign_typing, laws.is_same_typed_sound _ _ hs, hnew]
    · have hs2 : ops.is_same_typed
          (ops.set_typed ops.new kt kc ops.nil_variant vt vc ops.nil_variant) p = false := by
        simpa using hs
      simp only [hs2, Bool.false_eq_true, if_false]
      rw [laws.assign_typing, hnew]
  · simp only [TypedDictionary.new, hcall, hty]
  · intro hs
    refine ⟨?_, ?_⟩
    · simp only [TypedDictionary.from_dictionary, hcall, hty, hs, if_true]
    · rw [laws.is_same_typed_sound _ _ hs, hnew]
  · intro hs
    simp only [TypedDictionary.from_dictionary, hcall, hty, hs, Bool.false_eq_true, if_false]

/-- C7: constructing a `TypedDictionary<K, V>` from any `Dictionary p` yields a
dictionary carrying the declared typing of `K` and `V`: tag `OBJECT` and the
class name for an object class, the type's own tag and the empty class name for
a built-in type, the empty `Variant()` as script. This holds for the primary
template (two object classes `K`, `V`), for both partial specializations of
`MAKE_TYPED_DICTIONARY_WITH_OBJECT` (an object class `T` with a built-in type
of tag `m_variant_type`, on either side) and for the explicit specialization of
`MAKE_TYPED_DICTIONARY_EXPANDED` (two built-in types). In each, the constructor
first calls `set_typed` with these arguments on a fresh dictionary (which is all
the default constructor does), then calls `Dictionary::operator=` when `p` is
same-typed, in which case `p` carries the declared typing too, and `assign(p)`
otherwise. The constructor from a `Variant` is the constructor from
`Dictionary(p_variant)`. The engine's `Dictionary` is any one that meets
`DictionaryLaws`. -/
theorem C7_constructor_typing {D Var : Type} (ops : DictionaryOps D Var)
    (typing : D → Typing Var) (laws : DictionaryLaws ops typing) (K V T : String)
    (m_variant_type m_variant_type_key m_variant_type_value : VariantType) (p : D)
    (p_variant : Var) :
    (typing (TypedDictionary.from_dictionary ops (.primary K V) p).self =
        Typing.mk .OBJECT K ops.nil_variant .OBJECT V ops.nil_variant ∧
      TypedDictionary.new ops (.primary K V) =
        Outcome.mk (ops.set_typed ops.new .OBJECT K ops.nil_variant .OBJECT V ops.nil_variant)
          [Call.set_typed (Typing.mk .OBJECT K ops.nil_variant .OBJECT V ops.nil_variant)] ∧
      (ops.is_same_typed (ops.set_typed ops.new .OBJECT K ops.nil_variant .OBJECT V ops.nil_variant) p = true →
        TypedDictionary.from_dictionary ops (.primary K V) p =
            Outcome.mk
              (ops.operator_assign (ops.set_typed ops.new .OBJECT K ops.nil_variant .OBJECT V ops.nil_variant) p)
              [Call.set_typed (Typing.mk .OBJECT K ops.nil_variant .OBJECT V ops.nil_variant),
                Call.operator_assign p] ∧
          typing p = Typing.mk .OBJECT K ops.nil_variant .OBJECT V ops.nil_variant) ∧
      (ops.is_same_typed (ops.set_typed ops.new .OBJECT K ops.nil_variant .OBJECT V ops.nil_variant) p = false →
        TypedDictionary.from_dictionary ops (.primary K V) p =
          Outcome.mk
            (ops.assign (ops.set_typed ops.new .OBJECT K ops.nil_variant .OBJECT V ops.nil_variant) p)
            [Call.set_typed (Typing.mk .OBJECT K ops.nil_variant .OBJECT V ops.nil_variant),
              Call.assign p]) ∧
      TypedDictionary.from_variant ops (.primary K V) p_variant =
        TypedDictionary.from_dictionary ops (.primary K V) (ops.from_variant p_variant)) ∧
      (typing (TypedDictionary.from_dictionary ops (.with_object_value T m_variant_type) p).self =
          Typing.mk .OBJECT T ops.nil_variant m_variant_type "" ops.nil_variant ∧
        TypedDictionary.new ops (.with_object_value T m_variant_type) =
          Outcome.mk (ops.set_typed ops.new .OBJECT T ops.nil_variant m_variant_type "" ops.nil_variant)
            [Call.set_typed (Typing.mk .OBJECT T ops.nil_variant m_variant_type "" ops.nil_variant)] ∧
        (ops.is_same_typed (ops.set_typed ops.new .OBJECT T ops.nil_variant m_variant_type "" ops.nil_variant) p = true →
          TypedDictionary.from_dictionary ops (.with_object_value T m_variant_type) p =
              Outcome.mk
                (ops.operator_assign (ops.set_typed ops.new .OBJECT T ops.nil_variant m_variant_type "" ops.nil_variant) p)
                [Call.set_typed (Typing.mk .OBJECT T ops.nil_variant m_variant_type "" ops.nil_variant),
                  Call.operator_assign p] ∧
            typing p = Typing.mk .OBJECT T ops.nil_variant m_variant_type "" ops.nil_variant) ∧
        (ops.is_same_typed (ops.set_typed ops.new .OBJECT T ops.nil_variant m_variant_type "" ops.nil_variant) p = false →
          TypedDictionary.from_dictionary ops (.with_object_value T m_variant_type) p =
            Outcome.mk
              (ops.assign (ops.set_typed ops.new .OBJECT T ops.nil_variant m_variant_type "" ops.nil_variant) p)
              [Call.set_typed (Typing.mk .OBJECT T ops.nil_variant m_variant_type "" ops.nil_variant),
                Call.assign p]) ∧
        TypedDictionary.from_variant ops (.with_object_value T m_variant_type) p_variant =
          TypedDictionary.from_dictionary ops (.with_object_value T m_variant_type) (ops.from_variant p_variant)) ∧
      (typing (TypedDictionary.from_dictionary ops (.with_object_key m_variant_type T) p).self =
          Typing.mk m_variant_type "" ops.nil_variant .OBJECT T ops.nil_variant ∧
        TypedDictionary.new ops (.with_object_key m_variant_type T) =
          Outcome.mk (ops.set_typed ops.new m_variant_type "" ops.nil_variant .OBJECT T ops.nil_variant)
            [Call.set_typed (Typing.mk m_variant_type "" ops.nil_variant .OBJECT T ops.nil_variant)] ∧
        (ops.is_same_typed (ops.set_typed ops.new m_variant_type "" ops.nil_variant .OBJECT T ops.nil_variant) p = true →
          TypedDictionary.from_dictionary ops (.with_object_key m_variant_type T) p =
              Outcome.mk
                (ops.operator_assign (ops.set_typed ops.new m_variant_type "" ops.nil_variant .OBJECT T ops.nil_variant) p)
                [Call.set_typed (Typing.mk m_variant_type "" ops.nil_variant .OBJECT T ops.nil_variant),
                  Call.operator_assign p] ∧
            typing p = Typing.mk m_variant_type "" ops.nil_variant .OBJECT T ops.nil_variant) ∧
        (ops.is_same_typed (ops.set_typed ops.new m_variant_type "" ops.nil_variant .OBJECT T ops.nil_variant) p = false →
          TypedDictionary.from_dictionary ops (.with_object_key m_variant_type T) p =
            Outcome.mk
              (ops.assign (ops.set_typed ops.new m_variant_type "" ops.nil_variant .OBJECT T ops.nil_variant) p)
              [Call.set_typed (Typing.mk m_variant_type "" ops.nil_variant .OBJECT T ops.nil_variant),
                Call.assign p]) ∧
        TypedDictionary.from_variant ops (.with_object_key m_variant_type T) p_variant =
          TypedDictionary.from_dictionary ops (.with_object_key m_variant_type T) (ops.from_variant p_variant)) ∧
      (typing (TypedDictionary.from_dictionary ops (.expanded m_variant_type_key m_variant_type_value) p).self =
          Typing.mk m_variant_type_key "" ops.nil_variant m_variant_type_value "" ops.nil_variant ∧
        TypedDictionary.new ops (.expanded m_variant_type_key m_variant_type_value) =
          Outcome.mk (ops.set_typed ops.new m_variant_type_key "" ops.nil_variant m_variant_type_value "" ops.nil_variant)
            [Call.set_typed (Typing.mk m_variant_type_key "" ops.nil_variant m_variant_type_value "" ops.nil_variant)] ∧
        (ops.is_same_typed (ops.set_typed ops.new m_variant_type_key "" ops.nil_variant m_variant_type_value "" ops.nil_variant) p = true →
          TypedDictionary.from_dictionary ops (.expanded m_variant_type_key m_variant_type_value) p =
              Outcome.mk
                (ops.operator_assign (ops.set_typed ops.new m_variant_type_key "" ops.nil_variant m_variant_type_value "" ops.nil_variant) p)
                [Call.set_typed (Typing.mk m_variant_type_key "" ops.nil_variant m_variant_type_value "" ops.nil_variant),
                  Call.operator_assign p] ∧
            typing p = Typing.mk m_variant_type_key "" ops.nil_variant m_variant_type_value "" ops.nil_variant) ∧
        (ops.is_same_typed (ops.set_typed ops.new m_variant_type_key "" ops.nil_variant m_variant_type_value "" ops.nil_variant) p = false →
          TypedDictionary.from_dictionary ops (.expanded m_variant_type_key m_variant_type_value) p =
            Outcome.mk
              (ops.assign (ops.set_typed ops.new m_variant_type_key "" ops.nil_variant m_variant_type_value "" ops.nil_variant) p)
              [Call.set_typed (Typing.mk m_variant_type_key "" ops.nil_variant m_variant_type_value "" ops.nil_variant),
                Call.assign p]) ∧
        TypedDictionary.from_variant ops (.expanded m_variant_type_key m_variant_type_value) p_variant =
          TypedDictionary.from_dictionary ops (.expanded m_variant_type_key m_variant_type_value) (ops.from_variant p_variant)) :=
  ⟨TypedDictionary.constructor_spec ops typing laws (.primary K V) .OBJECT K .OBJECT V rfl p
      p_variant,
    TypedDictionary.constructor_spec ops typing laws (.with_object_value T m_variant_type)
      .OBJECT T m_variant_type "" rfl p p_variant,
    TypedDictionary.constructor_spec ops typing laws (.with_object_key m_variant_type T)
      m_variant_type "" .OBJECT T rfl p p_variant,
    TypedDictionary.constructor_spec ops typing laws
      (.expanded m_variant_type_key m_variant_type_value) m_variant_type_key ""
      m_variant_type_value "" rfl p p_variant⟩

/-- Witness of C7, on the stand-in engine, from an untyped dictionary of two
entries: a `TypedDictionary<Node, Resource>` is typed `OBJECT`/"Node" to
`OBJECT`/"Resource", a `TypedDictionary<Node, String>` is typed `OBJECT`/"Node"
to `STRING`, and a `TypedDictionary<int32_t, String>` is typed `INT` to
`STRING`. -/
theorem C7_constructor_typing_witness :
    (TypedDictionary.from_dictionary refOps (.primary "Node" "Resource")
          ⟨⟨.NIL, "", none, .NIL, "", none⟩, [(1, 10), (2, 20)]⟩).self.typing =
        ⟨.OBJECT, "Node", none, .OBJECT, "Resource", none⟩ ∧
      (TypedDictionary.from_dictionary refOps (.with_object_value "Node" .STRING)
          ⟨⟨.NIL, "", none, .NIL, "", none⟩, [(1, 10), (2, 20)]⟩).self.typing =
        ⟨.OBJECT, "Node", none, .STRING, "", none⟩ ∧
      (TypedDictionary.from_dictionary refOps (.expanded .INT .STRING)
          ⟨⟨.NIL, "", none, .NIL, "", none⟩, [(1, 10), (2, 20)]⟩).self.typing =
        ⟨.INT, "", none, .STRING, "", none⟩ :=
  ⟨(C7_constructor_typing refOps RefDictionary.typing refOps_laws "Node" "Resource" "Node"
      .STRING .INT .STRING ⟨⟨.NIL, "", none, .NIL, "", none⟩, [(1, 10), (2, 20)]⟩ none).1.1,
    (C7_constructor_typing refOps RefDictionary.typing refOps_laws "Node" "Resource" "Node"
      .STRING .INT .STRING ⟨⟨.NIL, "", none, .NIL, "", none⟩, [(1, 10), (2, 20)]⟩ none).2.1.1,
    (C7_constructor_typing refOps RefDictionary.typing refOps_laws "Node" "Resource" "Node"
      .STRING .INT .STRING ⟨⟨.NIL, "", none, .NIL, "", none⟩, [(1, 10), (2, 20)]⟩ none).2.2.2.1⟩

/-! ## Claims on the macro expansion -/

theorem mem_MAKE_TYPED_DICTIONARY_NIL (m_type : BuiltinType) (m_variant_type : VariantType)
    (s : Specialization) :
    s ∈ MAKE_TYPED_DICTIONARY_NIL m_type m_variant_type ↔
      ∃ r ∈ NIL_rows, s = ⟨m_type, m_variant_type, r.1, r.2⟩ := by
  simp only [MAKE_TYPED_DICTIONARY_NIL, MAKE_TYPED_DICTIONARY_EXPANDED, List.mem_flatMap,
    List.mem_singleton]

theorem mem_MAKE_TYPED_DICTIONARY (m_type : BuiltinType) (m_variant_type : VariantType)
    (s : Specialization) :
    s ∈ MAKE_TYPED_DICTIONARY m_type m_variant_type ↔
      s = ⟨m_type, m_variant_type, .Variant, .NIL⟩ ∨
        ∃ r ∈ NIL_rows, s = ⟨m_type, m_variant_type, r.1, r.2⟩ := by
  simp only [MAKE_TYPED_DICTIONARY, MAKE_TYPED_DICTIONARY_EXPANDED, List.mem_append,
    List.mem_singleton, mem_MAKE_TYPED_DICTIONARY_NIL]

/-- Every type other than `Variant` is the value type of a line of
`MAKE_TYPED_DICTIONARY_NIL`, and `Variant` is not. -/
theorem mem_NIL_rows_iff (v : BuiltinType) : v ∈ NIL_rows.map Prod.fst ↔ v ≠ .Variant := by
  cases v <;> decide

/-- Every type other than `Variant` is the argument of an invocation of
`MAKE_TYPED_DICTIONARY`, and `Variant` is not. -/
theorem mem_invocations_iff (k : BuiltinType) :
    k ∈ invocations.map Prod.fst ↔ k ≠ .Variant := by
  cases k <;> decide

/-- The pairs of the explicit specializations: key `Variant` with a value type
other than `Variant`, or a key other than `Variant` with any value type. -/
theorem mem_generated_pairs_iff (k v : BuiltinType) :
    (k, v) ∈ generated_pairs ↔ ¬ (k = .Variant ∧ v = .Variant) := by
  have hv := mem_NIL_rows_iff v
  have hk := mem_invocations_iff k
  simp only [List.mem_map, Prod.exists, exists_and_right, exists_eq_right] at hv hk
  simp only [generated_pairs, explicit_specializations, List.mem_map, List.mem_append,
    List.mem_flatMap, mem_MAKE_TYPED_DICTIONARY_NIL, mem_MAKE_TYPED_DICTIONARY, Prod.exists,
    Prod.mk.injEq]
  constructor
  · rintro ⟨s, hs, rfl, rfl⟩ ⟨hk1, hv1⟩
    rcases hs with ⟨a, b, hab, rfl⟩ | ⟨a, b, hab, rfl | ⟨c, d, hcd, rfl⟩⟩
    · exact hv.1 ⟨b, hab⟩ hv1
    · exact hk.1 ⟨b, hab⟩ hk1
    · exact hk.1 ⟨b, hab⟩ hk1
  · intro h
    by_cases hk1 : k = .Variant
    · have hv1 : v ≠ .Variant := fun e => h ⟨hk1, e⟩
      obtain ⟨tv, htv⟩ := hv.2 hv1
      exact ⟨⟨.Variant, .NIL, v, tv⟩, Or.inl ⟨v, tv, htv, rfl⟩, hk1.symm, rfl⟩
    · obtain ⟨tk, htk⟩ := hk.2 hk1
      by_cases hv1 : v = .Variant
      · exact ⟨⟨k, tk, .Variant, .NIL⟩, Or.inr ⟨k, tk, htk, Or.inl rfl⟩, rfl, hv1.symm⟩
      · obtain ⟨tv, htv⟩ := hv.2 hv1
        exact ⟨⟨k, tk, v, tv⟩, Or.inr ⟨k, tk, htk, Or.inr ⟨v, tv, htv, rfl⟩⟩, rfl, rfl⟩

theorem mem_type_list (t : BuiltinType) : t ∈ type_list := by
  cases t <;> decide

/-- C8, as stated, fails at the pair `(Variant, Variant)`: both types are in
the type list, and no explicit specialization `TypedDictionary<Variant, Variant>`
is generated. -/
theorem C8_no_Variant_Variant_specialization :
    BuiltinType.Variant ∈ type_list ∧
      (BuiltinType.Variant, BuiltinType.Variant) ∉ generated_pairs ∧
      ¬ (∀ k ∈ type_list, ∀ v ∈ type_list, (k, v) ∈ generated_pairs) := by
  have h : (BuiltinType.Variant, BuiltinType.Variant) ∉ generated_pairs := fun hm =>
    (mem_generated_pairs_iff .Variant .Variant).1 hm ⟨rfl, rfl⟩
  exact ⟨mem_type_list _, h, fun hall => h (hall _ (mem_type_list _) _ (mem_type_list _))⟩

/-- C8 (amended): the type list holds `Variant` and the 44 types `bool`, ...,
`PackedVector4Array` (45 types, each listed once), and the explicit
specializations `TypedDictionary<K, V>` that the macros generate are those of
every ordered pair `(K, V)` of the list other than `(Variant, Variant)`. -/
theorem C8_generated_pairs (k v : BuiltinType) :
    (k ∈ type_list ∧ v ∈ type_list) ∧ type_list.length = 45 ∧ type_list.Nodup ∧
      ((k, v) ∈ generated_pairs ↔ ¬ (k = .Variant ∧ v = .Variant)) :=
  ⟨⟨mem_type_list k, mem_type_list v⟩, by decide, by decide, mem_generated_pairs_iff k v⟩

/-! ## Claims on `Vector2i`: cross product and scalar multiplication -/

theorem mul32_cast (a b : Int) :
    ((mul32 a b : Int) : ZMod (2 ^ 32)) = (a : ZMod (2 ^ 32)) * b := by
  unfold mul32
  rw [wrap32_cast]
  push_cast
  rfl

theorem neg32_cast (a : Int) : ((neg32 a : Int) : ZMod (2 ^ 32)) = -(a : ZMod (2 ^ 32)) := by
  unfold neg32
  rw [wrap32_cast]
  push_cast
  rfl

theorem Vector2i.cross_cast (a b : Vector2i) :
    ((a.cross b : Int) : ZMod (2 ^ 32)) = (a.x : ZMod (2 ^ 32)) * b.y - a.y * b.x := by
  unfold Vector2i.cross
  rw [sub32_cast, mul32_cast, mul32_cast]

theorem Vector2i.cross_isInt32 (a b : Vector2i) : isInt32 (a.cross b) := wrap32_isInt32 _

/-- C12: `a.cross(b)` is `a.x*b.y - a.y*b.x` in 32-bit arithmetic (the exact
value reduced to `int32_t`); it is antisymmetric, `a.cross(b) == -(b.cross(a))`
with the 32-bit negation, and `a.cross(a) == 0`. -/
theorem C12_cross_antisymmetric (a b : Vector2i) :
    a.cross b = wrap32 (a.x * b.y - a.y * b.x) ∧ a.cross b = neg32 (b.cross a) ∧
      a.cross a = 0 := by
  refine ⟨?_, ?_, ?_⟩
  · apply eq_wrap32_of_cast (a.cross_isInt32 b)
    rw [Vector2i.cross_cast]
    push_cast
    rfl
  · have hn : isInt32 (neg32 (b.cross a)) := wrap32_isInt32 _
    apply eq_of_cast_of_isInt32 (a.cross_isInt32 b) hn
    rw [neg32_cast, Vector2i.cross_cast, Vector2i.cross_cast]
    ring
  · apply eq_of_cast_of_isInt32 (a.cross_isInt32 a) (by decide)
    rw [Vector2i.cross_cast]
    push_cast
    ring

/-- C13: the free operators agree with `operator*(const int32_t &)`: for an
`int32_t` scalar `s`, `s * v == v * s == (v.x*s, v.y*s)` in 32-bit arithmetic;
for an `int64_t` scalar `s`, `s * v` is `v` times `s` truncated to 32 bits,
that is `(v.x*s, v.y*s)` reduced modulo `2 ^ 32` into `int32_t`. -/
theorem C13_scalar_mul (s : Int) (v : Vector2i) :
    Vector2i.scalar_mul_int32 s v = v.mul_scalar s ∧
      v.mul_scalar s = ⟨wrap32 (v.x * s), wrap32 (v.y * s)⟩ ∧
      Vector2i.scalar_mul_int64 s v = v.mul_scalar (wrap32 s) ∧
      Vector2i.scalar_mul_int64 s v = ⟨wrap32 (v.x * s), wrap32 (v.y * s)⟩ ∧
      (Vector2i.scalar_mul_int64 s v).x ≡ v.x * s [ZMOD 2 ^ 32] ∧
      (Vector2i.scalar_mul_int64 s v).y ≡ v.y * s [ZMOD 2 ^ 32] := by
  have h : ∀ z : Int, mul32 z (wrap32 s) = wrap32 (z * s) := by
    intro z
    have hm : isInt32 (mul32 z (wrap32 s)) := wrap32_isInt32 _
    apply eq_wrap32_of_cast hm
    rw [mul32_cast, wrap32_cast]
    push_cast
    rfl
  have e : Vector2i.scalar_mul_int64 s v = ⟨wrap32 (v.x * s), wrap32 (v.y * s)⟩ := by
    simp only [Vector2i.scalar_mul_int64, Vector2i.mul_scalar, h]
  refine ⟨rfl, rfl, rfl, e, ?_, ?_⟩
  · rw [e]
    exact wrap32_modEq _
  · rw [e]
    exact wrap32_modEq _

/-! ## Claims on `Transform2Di`: transpose and inverse -/

/-- C15: `basis_xform_inv` multiplies by the transpose of the basis matrix:
`t.basis_xform(a).dot(b) == a.dot(t.basis_xform_inv(b))` in 32-bit wrapping
arithmetic. -/
theorem C15_basis_xform_inv_transpose (t : Transform2Di) (a b : Vector2i) :
    (t.basis_xform a).dot b = a.dot (t.basis_xform_inv b) := by
  apply eq_of_cast_of_isInt32 (Vector2i.dot_isInt32 _ _) (Vector2i.dot_isInt32 _ _)
  rw [Vector2i.dot_cast, Vector2i.dot_cast]
  simp only [Transform2Di.basis_xform, Transform2Di.basis_xform_inv, Transform2Di.columns_zero,
    Transform2Di.columns_one, Transform2Di.tdotx_cast, Transform2Di.tdoty_cast,
    Vector2i.dot_cast]
  ring

/-- C16: `xform_inv` is not a general inverse of `xform`. The uniform scale
`Transform2Di(2, 0, 0, 2, 0, 0)` has linearly independent basis columns, no
operation overflows on `v = (1, 1)`, and `t.xform_inv(t.xform(v))` is `(4, 4)`,
not `v`. -/
theorem C16_xform_inv_not_inverse :
    (Transform2Di.mk6 2 0 0 2 0 0).xform_inv ((Transform2Di.mk6 2 0 0 2 0 0).xform ⟨1, 1⟩) =
        ⟨4, 4⟩ ∧
      ∃ (t : Transform2Di) (v : Vector2i), t.valid ∧ v.valid ∧
        (t.columns 0).coord 0 * (t.columns 1).coord 1 -
          (t.columns 1).coord 0 * (t.columns 0).coord 1 ≠ 0 ∧
        t.xform_no_overflow v ∧ t.xform_inv_no_overflow (t.xform v) ∧
        t.xform_inv (t.xform v) ≠ v :=
  ⟨by decide, Transform2Di.mk6 2 0 0 2 0 0, ⟨1, 1⟩, by decide, by decide, by decide, by decide,
    by decide, by decide⟩

/-! ## Claims on `Vector2i`: comparison operators -/

/-- C20: the comparison operators are mutually consistent:
`(a <= b) == (a < b || a == b)`, `(a > b) == (b < a)`, `(a >= b) == (b <= a)`,
`(a <= b) == !(a > b)`, `(a != b) == !(a == b)` and
`a.is_equal(b) == (a == b)`. -/
theorem C20_comparisons_consistent (a b : Vector2i) :
    a.le b = (a.lt b || a.eq b) ∧ a.gt b = b.lt a ∧ a.ge b = b.le a ∧ a.le b = !(a.gt b) ∧
      a.ne b = !(a.eq b) ∧ a.is_equal b = a.eq b := by
  obtain ⟨ax, ay⟩ := a
  obtain ⟨bx, b_y⟩ := b
  simp only [Vector2i.le, Vector2i.lt, Vector2i.eq, Vector2i.gt, Vector2i.ge, Vector2i.ne,
    Vector2i.is_equal]
  refine ⟨?_, ?_, ?_, ?_, ?_, trivial⟩
  · by_cases h : ax = bx
    · subst h
      simp only [beq_self_eq_true, if_true, Bool.true_and]
      rw [Bool.eq_iff_iff]
      simp only [decide_eq_true_eq, Bool.or_eq_true, beq_iff_eq]
      omega
    · have h2 : (ax == bx) = false := beq_eq_false_iff_ne.2 h
      simp only [h2, Bool.false_and, Bool.or_false, Bool.false_eq_true, if_false]
  · by_cases h : ax = bx
    · subst h
      simp only [beq_self_eq_true, if_true, gt_iff_lt]
    · have h2 : (ax == bx) = false := beq_eq_false_iff_ne.2 h
      have h3 : (bx == ax) = false := beq_eq_false_iff_ne.2 (Ne.symm h)
      simp only [h2, h3, Bool.false_eq_true, if_false, gt_iff_lt]
  · by_cases h : ax = bx
    · subst h
      simp only [beq_self_eq_true, if_true, ge_iff_le]
    · have h2 : (ax == bx) = false := beq_eq_false_iff_ne.2 h
      have h3 : (bx == ax) = false := beq_eq_false_iff_ne.2 (Ne.symm h)
      simp only [h2, h3, Bool.false_eq_true, if_false, gt_iff_lt]
  · by_cases h : ax = bx
    · subst h
      simp only [beq_self_eq_true, if_true]
      rw [Bool.eq_iff_iff]
      simp only [decide_eq_true_eq, Bool.not_eq_true', decide_eq_false_iff_not, gt_iff_lt]
      omega
    · have h2 : (ax == bx) = false := beq_eq_false_iff_ne.2 h
      simp only [h2, Bool.false_eq_true, if_false]
      rw [Bool.eq_iff_iff]
      simp only [decide_eq_true_eq, Bool.not_eq_true', decide_eq_false_iff_not, gt_iff_lt]
      omega
  · rw [Bool.eq_iff_iff]
    simp only [Bool.or_eq_true, bne_iff_ne, ne_eq, Bool.not_eq_true', Bool.and_eq_false_iff,
      beq_eq_false_iff_ne]

/-! ## Claims on `Vector2i`: squared distance and normalization -/

/-- The squared length is exact away from `(INT32_MIN, INT32_MIN)`. -/
theorem Vector2i.length_squared_of_valid (v : Vector2i) (hv : v.valid)
    (hne : ¬ (v.x = -2 ^ 31 ∧ v.y = -2 ^ 31)) :
    v.length_squared = v.x * v.x + v.y * v.y := by
  obtain ⟨hx, hy⟩ := hv
  obtain ⟨hx0, hx1, hx2⟩ := sq_bounds_of_isInt32 hx
  obtain ⟨hy0, hy1, hy2⟩ := sq_bounds_of_isInt32 hy
  have hsum : v.x * v.x + v.y * v.y < 2 ^ 63 := by
    by_cases h : v.x = -2 ^ 31
    · have h2 := hy2 (fun hy3 => hne ⟨h, hy3⟩)
      linarith
    · have h2 := hx2 h
      linarith
  unfold Vector2i.length_squared add64 mul64
  rw [wrap64_of_isInt64 (⟨by linarith, by linarith⟩ : isInt64 (v.x * v.x)),
    wrap64_of_isInt64 (⟨by linarith, by linarith⟩ : isInt64 (v.y * v.y))]
  exact wrap64_of_isInt64 ⟨by linarith, hsum⟩

/-- C17, as stated, fails at `a = (INT32_MIN, 0)`, `b = (INT32_MAX, 0)`: the
32-bit difference `b.x - a.x` wraps to `-1`, and `a.distance_squared_to(b)` is
`1`, not `(2 ^ 32 - 1) ^ 2`. -/
theorem C17_distance_squared_to_wraps :
    (Vector2i.mk (-2147483648) 0).valid ∧ (Vector2i.mk 2147483647 0).valid ∧
      (Vector2i.mk (-2147483648) 0).distance_squared_to ⟨2147483647, 0⟩ = 1 ∧
      (Vector2i.mk (-2147483648) 0).distance_squared_to ⟨2147483647, 0⟩ ≠
        (2147483647 - (-2147483648) : Int) ^ 2 + (0 - 0 : Int) ^ 2 := by
  decide

/-- C17 (amended): for every pair `a`, `b` whose differences `b.x - a.x` and
`b.y - a.y` are representable as `int32_t` and are not both `INT32_MIN`,
`a.distance_squared_to(b)` is the exact integer
`(b.x - a.x)^2 + (b.y - a.y)^2`. -/
theorem C17_distance_squared_to_exact (a b : Vector2i) (hx : isInt32 (b.x - a.x))
    (hy : isInt32 (b.y - a.y)) (hne : ¬ (b.x - a.x = -2 ^ 31 ∧ b.y - a.y = -2 ^ 31)) :
    a.distance_squared_to b = (b.x - a.x) ^ 2 + (b.y - a.y) ^ 2 := by
  have hsub : b.sub a = ⟨b.x - a.x, b.y - a.y⟩ := by
    simp only [Vector2i.sub, sub32, wrap32_of_isInt32 hx, wrap32_of_isInt32 hy]
  unfold Vector2i.distance_squared_to
  rw [hsub, Vector2i.length_squared_of_valid _ ⟨hx, hy⟩ hne]
  ring

/-- Witness of C17 (amended): from `(-1000000000, 2147483647)` to
`(1000000000, 0)`. -/
theorem C17_distance_squared_to_exact_witness :
    (Vector2i.mk (-1000000000) 2147483647).distance_squared_to ⟨1000000000, 0⟩ =
      (1000000000 - (-1000000000) : Int) ^ 2 + (0 - 2147483647 : Int) ^ 2 :=
  C17_distance_squared_to_exact ⟨-1000000000, 2147483647⟩ ⟨1000000000, 0⟩ (by decide)
    (by decide) (by decide)

/-- The modelled `Math::sqrt` on a positive integer: at least `1`, and the
floor of the square root. -/
theorem Math.sqrt_spec {l : Int} (hl : 0 < l) :
    1 ≤ Math.sqrt l ∧ Math.sqrt l * Math.sqrt l ≤ l ∧
      l < (Math.sqrt l + 1) * (Math.sqrt l + 1) := by
  obtain ⟨n, rfl⟩ : ∃ n : Nat, l = (n : Int) := ⟨l.toNat, (Int.toNat_of_nonneg hl.le).symm⟩
  have hn : 0 < n := by exact_mod_cast hl
  have h1 : 0 < Nat.sqrt n := Nat.sqrt_pos.2 hn
  have h2 : Nat.sqrt n * Nat.sqrt n ≤ n := Nat.sqrt_le n
  have h3 : n < (Nat.sqrt n + 1) * (Nat.sqrt n + 1) := Nat.lt_succ_sqrt n
  unfold Math.sqrt
  rw [Int.toNat_natCast]
  refine ⟨by exact_mod_cast h1, by exact_mod_cast h2, by exact_mod_cast h3⟩

/-- A quotient truncated towards zero of `x` with `|x| ≤ s` is `-1`, `0` or `1`. -/
theorem tdiv_unit_of_abs_le {x s : Int} (h1 : 1 ≤ s) (h2 : -s ≤ x) (h3 : x ≤ s) :
    Int.tdiv x s = -1 ∨ Int.tdiv x s = 0 ∨ Int.tdiv x s = 1 := by
  rcases lt_trichotomy x 0 with hx | hx | hx
  · obtain ⟨y, rfl⟩ : ∃ y, x = -y := ⟨-x, by ring⟩
    rw [Int.neg_tdiv]
    by_cases hy : y = s
    · subst hy
      left
      rw [Int.tdiv_self (by omega)]
    · right; left
      rw [Int.tdiv_eq_zero_of_lt (by omega) (by omega)]
      rfl
  · subst hx
    right; left
    simp
  · by_cases hy : x = s
    · subst hy
      right; right
      exact Int.tdiv_self (by omega)
    · right; left
      exact Int.tdiv_eq_zero_of_lt (by omega) (by omega)

/-- A component is bounded by the floor of the square root of a sum of squares
that contains its square. -/
theorem abs_le_of_sq_le {x r s : Int} (hs : 0 ≤ s) (hr : 0 ≤ r)
    (h : x * x + r < (s + 1) * (s + 1)) : -s ≤ x ∧ x ≤ s := by
  constructor
  · by_contra hc
    have h1 : s + 1 ≤ -x := by omega
    nlinarith [mul_le_mul h1 h1 (by omega) (by omega)]
  · by_contra hc
    have h1 : s + 1 ≤ x := by omega
    nlinarith [mul_le_mul h1 h1 (by omega) (by omega)]

/-- The value of `normalize` on a non-zero vector whose `x*x + y*y` fits in
`int32_t`: both members are divided by the floor of the square root, which is
at least `1`, and the quotients are `-1`, `0` or `1`. -/
theorem Vector2i.normalize_of_fit (v : Vector2i) (hfit : isInt32 (v.x * v.x + v.y * v.y))
    (hne : v ≠ ⟨0, 0⟩) :
    1 ≤ Math.sqrt (v.x * v.x + v.y * v.y) ∧
      Math.sqrt (v.x * v.x + v.y * v.y) * Math.sqrt (v.x * v.x + v.y * v.y) ≤
        v.x * v.x + v.y * v.y ∧
      v.normalize = some ⟨Int.tdiv v.x (Math.sqrt (v.x * v.x + v.y * v.y)),
        Int.tdiv v.y (Math.sqrt (v.x * v.x + v.y * v.y))⟩ ∧
      (Int.tdiv v.x (Math.sqrt (v.x * v.x + v.y * v.y)) = -1 ∨
        Int.tdiv v.x (Math.sqrt (v.x * v.x + v.y * v.y)) = 0 ∨
        Int.tdiv v.x (Math.sqrt (v.x * v.x + v.y * v.y)) = 1) ∧
      (Int.tdiv v.y (Math.sqrt (v.x * v.x + v.y * v.y)) = -1 ∨
        Int.tdiv v.y (Math.sqrt (v.x * v.x + v.y * v.y)) = 0 ∨
        Int.tdiv v.y (Math.sqrt (v.x * v.x + v.y * v.y)) = 1) := by
  obtain ⟨x, y⟩ := v
  simp only at hfit ⊢
  have hx0 : 0 ≤ x * x := mul_self_nonneg x
  have hy0 : 0 ≤ y * y := mul_self_nonneg y
  obtain ⟨hf1, hf2⟩ := hfit
  have hpos : 0 < x * x + y * y := by
    rcases eq_or_ne x 0 with hx | hx
    · rcases eq_or_ne y 0 with hy | hy
      · exact absurd (by rw [hx, hy]) hne
      · have := mul_self_pos.2 hy
        linarith
    · have := mul_self_pos.2 hx
      linarith
  obtain ⟨s1, s2, s3⟩ := Math.sqrt_spec hpos
  generalize hs : Math.sqrt (x * x + y * y) = s at s1 s2 s3 ⊢
  have bx := abs_le_of_sq_le (by omega : 0 ≤ s) hy0 s3
  have b_y := abs_le_of_sq_le (by omega : 0 ≤ s) hx0 (by rw [add_comm]; exact s3)
  have ux := tdiv_unit_of_abs_le s1 bx.1 bx.2
  have uy := tdiv_unit_of_abs_le s1 b_y.1 b_y.2
  refine ⟨s1, s2, ?_, ux, uy⟩
  have hl : add32 (mul32 x x) (mul32 y y) = x * x + y * y := by
    unfold add32 mul32
    rw [wrap32_of_isInt32 (⟨by linarith, by linarith⟩ : isInt32 (x * x)),
      wrap32_of_isInt32 (⟨by linarith, by linarith⟩ : isInt32 (y * y))]
    exact wrap32_of_isInt32 ⟨hf1, hf2⟩
  have hwx : wrap32 (Int.tdiv x s) = Int.tdiv x s := by
    rcases ux with h | h | h <;> rw [h] <;> decide
  have hwy : wrap32 (Int.tdiv y s) = Int.tdiv y s := by
    rcases uy with h | h | h <;> rw [h] <;> decide
  have hs0 : s ≠ 0 := by omega
  have hl0 : x * x + y * y ≠ 0 := by omega
  simp only [Vector2i.normalize, hl, hs, ne_eq, hl0, not_false_eq_true, if_true, div32, hs0,
    if_false, Option.some_bind, hwx, hwy]

theorem Math.sqrt_25 : Math.sqrt 25 = 5 := by
  have h : Nat.sqrt 25 = 5 := (Nat.eq_sqrt.2 ⟨by decide, by decide⟩).symm
  show ((Nat.sqrt (25 : Int).toNat : Nat) : Int) = 5
  rw [show (25 : Int).toNat = 25 from rfl, h]
  rfl

/-- The vectors of members `-1`, `0`, `1` are fixed by `normalize`. -/
theorem Vector2i.normalize_unit (w : Vector2i) (hx : w.x = -1 ∨ w.x = 0 ∨ w.x = 1)
    (hy : w.y = -1 ∨ w.y = 0 ∨ w.y = 1) : w.normalize = some w := by
  by_cases h0 : w = ⟨0, 0⟩
  · rw [h0]
    decide
  · have hle : w.x * w.x + w.y * w.y ≤ 2 := by
      rcases hx with h | h | h <;> rcases hy with h' | h' | h' <;> rw [h, h'] <;> decide
    have hge : 0 ≤ w.x * w.x + w.y * w.y := add_nonneg (mul_self_nonneg _) (mul_self_nonneg _)
    have hfit : isInt32 (w.x * w.x + w.y * w.y) := ⟨by linarith, by linarith⟩
    obtain ⟨s1, s2, hn, -, -⟩ := w.normalize_of_fit hfit h0
    have hs : Math.sqrt (w.x * w.x + w.y * w.y) = 1 := by
      by_contra hc
      have h2 : 2 ≤ Math.sqrt (w.x * w.x + w.y * w.y) := by omega
      nlinarith [mul_le_mul h2 h2 (by omega) (by omega)]
    rw [hn, hs, Int.tdiv_one, Int.tdiv_one]

/-- C18: for a vector whose `x*x + y*y` fits in `int32_t`, `normalize()` leaves
the zero vector unchanged; for a non-zero vector the divisor, the floor of the
square root of `x*x + y*y`, is at least `1`, no division by zero occurs, and
each member of the result is `-1`, `0` or `1`; `(3, 4)` normalizes to `(0, 0)`. -/
theorem C18_normalize_safe (v : Vector2i) (hfit : isInt32 (v.x * v.x + v.y * v.y)) :
    (v = ⟨0, 0⟩ → v.normalize = some v) ∧
      (v ≠ ⟨0, 0⟩ →
        1 ≤ Math.sqrt (v.x * v.x + v.y * v.y) ∧
          ∃ w : Vector2i, v.normalize = some w ∧
            w = ⟨Int.tdiv v.x (Math.sqrt (v.x * v.x + v.y * v.y)),
              Int.tdiv v.y (Math.sqrt (v.x * v.x + v.y * v.y))⟩ ∧
            (w.x = -1 ∨ w.x = 0 ∨ w.x = 1) ∧ (w.y = -1 ∨ w.y = 0 ∨ w.y = 1)) ∧
      (Vector2i.mk 3 4).normalize = some ⟨0, 0⟩ := by
  refine ⟨?_, ?_, ?_⟩
  · intro h0
    rw [h0]
    decide
  · intro hne
    obtain ⟨s1, -, hn, ux, uy⟩ := v.normalize_of_fit hfit hne
    exact ⟨s1, _, hn, rfl, ux, uy⟩
  · obtain ⟨-, -, hn, -, -⟩ :=
      (Vector2i.mk 3 4).normalize_of_fit (by decide) (by decide)
    rw [hn]
    show some (Vector2i.mk (Int.tdiv 3 (Math.sqrt 25)) (Int.tdiv 4 (Math.sqrt 25))) = _
    rw [Math.sqrt_25]
    rfl

/-- Witness of C18: `(-5, 1)`, whose squared length is `26`, is not the zero
vector and normalizes without a division by zero. -/
theorem C18_normalize_safe_witness :
    isInt32 ((-5 : Int) * (-5) + 1 * 1) ∧
      1 ≤ Math.sqrt ((-5 : Int) * (-5) + 1 * 1) ∧
      ∃ w : Vector2i, (Vector2i.mk (-5) 1).normalize = some w ∧
        w = ⟨Int.tdiv (-5) (Math.sqrt ((-5 : Int) * (-5) + 1 * 1)),
          Int.tdiv 1 (Math.sqrt ((-5 : Int) * (-5) + 1 * 1))⟩ ∧
        (w.x = -1 ∨ w.x = 0 ∨ w.x = 1) ∧ (w.y = -1 ∨ w.y = 0 ∨ w.y = 1) :=
  ⟨by decide, (C18_normalize_safe ⟨-5, 1⟩ (by decide)).2.1 (by decide)⟩

/-- C19: `normalized()` is idempotent on a vector whose `x*x + y*y` fits in
`int32_t`: it returns a vector `w` (no division by zero), and
`w.normalized()` is `w` again. -/
theorem C19_normalized_idempotent (v : Vector2i) (hfit : isInt32 (v.x * v.x + v.y * v.y)) :
    (∃ w : Vector2i, v.normalized = some w ∧ w.normalized = some w) ∧
      v.normalized.bind Vector2i.normalized = v.normalized := by
  have h : ∃ w : Vector2i, v.normalized = some w ∧ w.normalized = some w := by
    by_cases h0 : v = ⟨0, 0⟩
    · rw [h0]
      exact ⟨⟨0, 0⟩, by decide, by decide⟩
    · obtain ⟨-, -, hn, ux, uy⟩ := v.normalize_of_fit hfit h0
      exact ⟨_, hn, Vector2i.normalize_unit _ ux uy⟩
  refine ⟨h, ?_⟩
  obtain ⟨w, h1, h2⟩ := h
  rw [h1, Option.some_bind, h2]

/-- Witness of C19: `(-5, 1)` normalizes to a vector that `normalized()` fixes. -/
theorem C19_normalized_idempotent_witness :
    isInt32 ((-5 : Int) * (-5) + 1 * 1) ∧
      (Vector2i.mk (-5) 1).normalized.bind Vector2i.normalized =
        (Vector2i.mk (-5) 1).normalized :=
  ⟨by decide, (C19_normalized_idempotent ⟨-5, 1⟩ (by decide)).2⟩

/-! ## Claims on `GetTypeInfo` -/

theorem mem_explicit_specializations_iff (s : Specialization) :
    s ∈ explicit_specializations ↔
      (s.m_type_key = .Variant ∧ s.m_variant_type_key = .NIL ∧
          (s.m_type_value, s.m_variant_type_value) ∈ NIL_rows) ∨
        ((s.m_type_key, s.m_variant_type_key) ∈ invocations ∧
          ((s.m_type_value = .Variant ∧ s.m_variant_type_value = .NIL) ∨
            (s.m_type_value, s.m_variant_type_value) ∈ NIL_rows)) := by
  obtain ⟨k, tk, v, tv⟩ := s
  simp only [explicit_specializations, List.mem_append, List.mem_flatMap,
    mem_MAKE_TYPED_DICTIONARY_NIL, mem_MAKE_TYPED_DICTIONARY, Prod.exists,
    Specialization.mk.injEq]
  constructor
  · rintro (⟨a, b, hab, rfl, rfl, rfl, rfl⟩ | ⟨a, b, hab, h⟩)
    · exact Or.inl ⟨rfl, rfl, hab⟩
    · rcases h with ⟨rfl, rfl, rfl, rfl⟩ | ⟨c, d, hcd, rfl, rfl, rfl, rfl⟩
      · exact Or.inr ⟨hab, Or.inl ⟨rfl, rfl⟩⟩
      · exact Or.inr ⟨hab, Or.inr hcd⟩
  · rintro (⟨rfl, rfl, h⟩ | ⟨hk, h⟩)
    · exact Or.inl ⟨v, tv, h, rfl, rfl, rfl, rfl⟩
    · rcases h with ⟨rfl, rfl⟩ | h
      · exact Or.inr ⟨k, tk, hk, Or.inl ⟨rfl, rfl, rfl, rfl⟩⟩
      · exact Or.inr ⟨k, tk, hk, Or.inr ⟨v, tv, h, rfl, rfl, rfl, rfl⟩⟩

theorem mem_MAKE_TYPED_DICTIONARY_INFO_EXPANDED (g : VariantType → String) (k : BuiltinType)
    (tk : VariantType) (v : BuiltinType) (tv : VariantType) (e : InfoSpecialization) :
    e ∈ MAKE_TYPED_DICTIONARY_INFO_EXPANDED g k tk v tv ↔
      ∃ form : ArgForm, e = ⟨form, k, tk, v, tv, .GDEXTENSION_VARIANT_TYPE_DICTIONARY,
        .GDEXTENSION_METHOD_ARGUMENT_METADATA_NONE, expanded_class_info g tk tv⟩ := by
  simp only [MAKE_TYPED_DICTIONARY_INFO_EXPANDED, List.mem_cons, List.mem_singleton,
    List.not_mem_nil, or_false]
  constructor
  · rintro (h | h)
    · exact ⟨.by_value, h⟩
    · exact ⟨.const_ref, h⟩
  · rintro ⟨form, h⟩
    cases form
    · exact Or.inl h
    · exact Or.inr h

theorem mem_info_specializations_iff (g : VariantType → String) (e : InfoSpecialization) :
    e ∈ info_specializations g ↔
      ((e.m_type_key = .Variant ∧ e.m_variant_type_key = .NIL ∧
            (e.m_type_value, e.m_variant_type_value) ∈ INFO_NIL_rows) ∨
          ((e.m_type_key, e.m_variant_type_key) ∈ INFO_invocations ∧
            ((e.m_type_value = .Variant ∧ e.m_variant_type_value = .NIL) ∨
              (e.m_type_value, e.m_variant_type_value) ∈ INFO_NIL_rows))) ∧
        e.VARIANT_TYPE = .GDEXTENSION_VARIANT_TYPE_DICTIONARY ∧
        e.METADATA = .GDEXTENSION_METHOD_ARGUMENT_METADATA_NONE ∧
        e.get_class_info =
          expanded_class_info g e.m_variant_type_key e.m_variant_type_value := by
  obtain ⟨form, k, tk, v, tv, vt, md, info⟩ := e
  cases md
  simp only [info_specializations, MAKE_TYPED_DICTIONARY_INFO_NIL, MAKE_TYPED_DICTIONARY_INFO,
    List.mem_append, List.mem_flatMap, mem_MAKE_TYPED_DICTIONARY_INFO_EXPANDED, Prod.exists,
    InfoSpecialization.mk.injEq, true_and]
  constructor
  · rintro (⟨a, b, hab, f, rfl, rfl, rfl, rfl, rfl, rfl, rfl⟩ | ⟨a, b, hab, h⟩)
    · exact ⟨Or.inl ⟨rfl, rfl, hab⟩, rfl, rfl⟩
    · rcases h with ⟨f, rfl, rfl, rfl, rfl, rfl, rfl, rfl⟩ |
        ⟨c, d, hcd, f, rfl, rfl, rfl, rfl, rfl, rfl, rfl⟩
      · exact ⟨Or.inr ⟨hab, Or.inl ⟨rfl, rfl⟩⟩, rfl, rfl⟩
      · exact ⟨Or.inr ⟨hab, Or.inr hcd⟩, rfl, rfl⟩
  · rintro ⟨h, rfl, rfl⟩
    rcases h with ⟨rfl, rfl, h⟩ | ⟨hk, h⟩
    · exact Or.inl ⟨v, tv, h, form, rfl, rfl, rfl, rfl, rfl, rfl, rfl⟩
    · rcases h with ⟨rfl, rfl⟩ | h
      · exact Or.inr ⟨k, tk, hk, Or.inl ⟨form, rfl, rfl, rfl, rfl, rfl, rfl, rfl⟩⟩
      · exact Or.inr ⟨k, tk, hk, Or.inr ⟨v, tv, h, form, rfl, rfl, rfl, rfl, rfl, rfl, rfl⟩⟩

/-- The lines of `MAKE_TYPED_DICTIONARY_NIL` all occur in `MAKE_TYPED_DICTIONARY_INFO_NIL`. -/
theorem NIL_rows_subset_INFO : ∀ r ∈ NIL_rows, r ∈ INFO_NIL_rows := by decide

/-- The invocations of `MAKE_TYPED_DICTIONARY` all have their `INFO` counterpart. -/
theorem invocations_subset_INFO : ∀ r ∈ invocations, r ∈ INFO_invocations := by decide

/-- A key type has one tag, whether in the dictionary or in the `INFO` invocations. -/
theorem key_tag_unique :
    ∀ r ∈ (BuiltinType.Variant, VariantType.NIL) :: INFO_invocations,
      ∀ r' ∈ (BuiltinType.Variant, VariantType.NIL) :: invocations,
        r.1 = r'.1 → r.2 = r'.2 := by
  decide

/-- A value type has one tag, whether in the dictionary or in the `INFO` lines. -/
theorem value_tag_unique :
    ∀ r ∈ (BuiltinType.Variant, VariantType.NIL) :: INFO_NIL_rows,
      ∀ r' ∈ (BuiltinType.Variant, VariantType.NIL) :: NIL_rows,
        r.1 = r'.1 → r.2 = r'.2 := by
  decide

/-- C14: for every explicit specialization `TypedDictionary<K, V>` of built-in
types and each argument form (by value, by constant reference), the header
writes a `GetTypeInfo` specialization whose `VARIANT_TYPE` is `DICTIONARY` and
whose `get_class_info()` is the `PropertyInfo` of type `DICTIONARY`, empty
name, hint `PROPERTY_HINT_DICTIONARY_TYPE` and hint string
"<key name>;<value name>", a tag `NIL` being named "Variant" and any other tag
by `Variant::get_type_name`; every `GetTypeInfo` specialization on the same
two types, in either form, has these members. -/
theorem C14_get_type_info (get_type_name : VariantType → String) (s : Specialization)
    (hs : s ∈ explicit_specializations) (form : ArgForm) :
    (⟨form, s.m_type_key, s.m_variant_type_key, s.m_type_value, s.m_variant_type_value,
          .GDEXTENSION_VARIANT_TYPE_DICTIONARY, .GDEXTENSION_METHOD_ARGUMENT_METADATA_NONE,
          ⟨.DICTIONARY, "", .PROPERTY_HINT_DICTIONARY_TYPE,
            type_name get_type_name s.m_variant_type_key ++ ";" ++
              type_name get_type_name s.m_variant_type_value⟩⟩ : InfoSpecialization) ∈
        info_specializations get_type_name ∧
      (∀ e ∈ info_specializations get_type_name,
        e.m_type_key = s.m_type_key → e.m_type_value = s.m_type_value →
          e.VARIANT_TYPE = .GDEXTENSION_VARIANT_TYPE_DICTIONARY ∧
            e.get_class_info =
              ⟨.DICTIONARY, "", .PROPERTY_HINT_DICTIONARY_TYPE,
                type_name get_type_name s.m_variant_type_key ++ ";" ++
                  type_name get_type_name s.m_variant_type_value⟩) ∧
      type_name get_type_name .NIL = "Variant" ∧
      ∀ t : VariantType, t ≠ .NIL → type_name get_type_name t = get_type_name t := by
  have hs2 := (mem_explicit_specializations_iff s).1 hs
  have hkey : (s.m_type_key, s.m_variant_type_key) ∈
      (BuiltinType.Variant, VariantType.NIL) :: invocations := by
    rcases hs2 with ⟨h1, h2, -⟩ | ⟨h, -⟩
    · rw [h1, h2]
      exact List.mem_cons_self _ _
    · exact List.mem_cons_of_mem _ h
  have hval : (s.m_type_value, s.m_variant_type_value) ∈
      (BuiltinType.Variant, VariantType.NIL) :: NIL_rows := by
    rcases hs2 with ⟨-, -, h⟩ | ⟨-, ⟨h1, h2⟩ | h⟩
    · exact List.mem_cons_of_mem _ h
    · rw [h1, h2]
      exact List.mem_cons_self _ _
    · exact List.mem_cons_of_mem _ h
  refine ⟨?_, ?_, rfl, ?_⟩
  · rw [mem_info_specializations_iff]
    refine ⟨?_, rfl, rfl, rfl⟩
    rcases hs2 with ⟨h1, h2, h⟩ | ⟨h, h'⟩
    · exact Or.inl ⟨h1, h2, NIL_rows_subset_INFO _ h⟩
    · refine Or.inr ⟨invocations_subset_INFO _ h, ?_⟩
      rcases h' with h' | h'
      · exact Or.inl h'
      · exact Or.inr (NIL_rows_subset_INFO _ h')
  · intro e he hk hv
    obtain ⟨hrows, hvt, -, hinfo⟩ := (mem_info_specializations_iff get_type_name e).1 he
    have ekey : (e.m_type_key, e.m_variant_type_key) ∈
        (BuiltinType.Variant, VariantType.NIL) :: INFO_invocations := by
      rcases hrows with ⟨h1, h2, -⟩ | ⟨h, -⟩
      · rw [h1, h2]
        exact List.mem_cons_self _ _
      · exact List.mem_cons_of_mem _ h
    have eval : (e.m_type_value, e.m_variant_type_value) ∈
        (BuiltinType.Variant, VariantType.NIL) :: INFO_NIL_rows := by
      rcases hrows with ⟨-, -, h⟩ | ⟨-, ⟨h1, h2⟩ | h⟩
      · exact List.mem_cons_of_mem _ h
      · rw [h1, h2]
        exact List.mem_cons_self _ _
      · exact List.mem_cons_of_mem _ h
    have e1 : e.m_variant_type_key = s.m_variant_type_key :=
      key_tag_unique _ ekey _ hkey hk
    have e2 : e.m_variant_type_value = s.m_variant_type_value :=
      value_tag_unique _ eval _ hval hv
    refine ⟨hvt, ?_⟩
    rw [hinfo, e1, e2]
    rfl
  · intro t ht
    simp only [type_name, ht, if_false]

/-- Witness of C14: `GetTypeInfo<const TypedDictionary<int32_t, String> &>`,
with a `get_type_name` that names the tags `INT` and `STRING` "int" and
"String". -/
theorem C14_get_type_info_witness :
    (⟨.int32_t, .INT, .String, .STRING⟩ : Specialization) ∈ explicit_specializations ∧
      (⟨.const_ref, .int32_t, .INT, .String, .STRING, .GDEXTENSION_VARIANT_TYPE_DICTIONARY,
          .GDEXTENSION_METHOD_ARGUMENT_METADATA_NONE,
          ⟨.DICTIONARY, "", .PROPERTY_HINT_DICTIONARY_TYPE, "int;String"⟩⟩ :
          InfoSpecialization) ∈ info_specializations ref_get_type_name :=
  have h : (⟨.int32_t, .INT, .String, .STRING⟩ : Specialization) ∈ explicit_specializations :=
    (mem_explicit_specializations_iff _).2 (Or.inr ⟨by decide, Or.inr (by decide)⟩)
  ⟨h, (C14_get_type_info ref_get_type_name ⟨.int32_t, .INT, .String, .STRING⟩ h .const_ref).1⟩

/-! ## Claims on `Vector2i`: the perpendicular vector -/

/-- The 32-bit negation is exact on every `int32_t` other than `INT32_MIN`. -/
theorem neg32_of_ne_min {z : Int} (h : isInt32 z) (hne : z ≠ -2 ^ 31) : neg32 z = -z := by
  unfold isInt32 at h
  unfold neg32 wrap32
  omega

/-- C21: `v.orthogonal()` is `(v.y, -v.x)` with the 32-bit negation (the exact
`-v.x` unless `v.x` is `INT32_MIN`), it is perpendicular to `v`,
`v.dot(v.orthogonal()) == 0` in 32-bit wrapping arithmetic, and
`a.cross(b) == a.dot(b.orthogonal())`. -/
theorem C21_orthogonal_perpendicular (a b v : Vector2i) :
    v.orthogonal = ⟨v.y, wrap32 (-v.x)⟩ ∧
      (isInt32 v.x → v.x ≠ -2 ^ 31 → v.orthogonal = ⟨v.y, -v.x⟩) ∧
      v.dot v.orthogonal = 0 ∧ a.cross b = a.dot b.orthogonal := by
  refine ⟨rfl, ?_, ?_, ?_⟩
  · intro h hne
    show Vector2i.mk v.y (neg32 v.x) = _
    rw [neg32_of_ne_min h hne]
  · have h0 : isInt32 0 := by decide
    apply eq_of_cast_of_isInt32 (Vector2i.dot_isInt32 _ _) h0
    rw [Vector2i.dot_cast]
    simp only [Vector2i.orthogonal, neg32_cast]
    push_cast
    ring
  · apply eq_of_cast_of_isInt32 (a.cross_isInt32 b) (Vector2i.dot_isInt32 _ _)
    rw [Vector2i.cross_cast, Vector2i.dot_cast]
    simp only [Vector2i.orthogonal, neg32_cast]
    ring

/-- Witness of C21: `(7, -3).orthogonal()` is `(-3, -7)`, and
`(INT32_MIN, INT32_MAX)` is perpendicular to its `orthogonal()`. -/
theorem C21_orthogonal_perpendicular_witness :
    (Vector2i.mk 7 (-3)).orthogonal = ⟨-3, -7⟩ ∧
      (Vector2i.mk (-2147483648) 2147483647).dot
        (Vector2i.mk (-2147483648) 2147483647).orthogonal = 0 :=
  ⟨(C21_orthogonal_perpendicular ⟨1, 2⟩ ⟨3, 4⟩ ⟨7, -3⟩).2.1 (by decide) (by decide),
    (C21_orthogonal_perpendicular ⟨1, 2⟩ ⟨3, 4⟩ ⟨-2147483648, 2147483647⟩).2.2.1⟩

end godot
